import Mathlib

/-!
Verification of the rusctp SCTP core against its specification.

This file is a shallow embedding, in Lean 4, of the parts of the rusctp
sources that the specification claims talk about:

* serial-number (RFC 1982) comparison, as used through the external `sna`
  crate and defined in the specification (section 3, "Serial numbers");
* the reception mapping array (`src/sctp_mapping_array.rs`): `initialize`,
  `update`, `genarate_sack` and the 256-entry `SctpAckTrack` table;
* the wire codec (`src/sctp_pkt.rs`): chunk and parameter serialization and
  parsing, and the HMAC-authenticated state cookie;
* the inbound stream engine (`src/sctp_stream.rs`): `SctpStreamIn::recv`,
  reassembly messages, and `read`;
* the per-path congestion state (`src/sctp_recovery.rs`):
  `increase_cwnd` / `congestion_control`;
* the DATA-routing and `read_from_stream` slices of `SctpAssociation`
  (`src/lib.rs`).

Machine integers are embedded as `Nat` with explicit `% 2^w` at the points
where the Rust code wraps; byte strings are `List Nat` with each element a
byte value.  Fallible Rust functions return an `Outcome`; Rust panics
(failed asserts, out-of-bounds indexing, `unwrap` of an `Err`) are the
`Outcome.crash` case.
-/

/-- Bytes and byte strings: a byte is a `Nat` smaller than 256. -/
abbrev Bytes := List Nat

/-- RFC 1982 serial-number strict order on 32-bit values, as the spec defines
it: `a < b` iff `(b - a) mod 2^32` lies in `(0, 2^31)`.  Modelled from the
spec: the implementation uses the external `sna` crate for this order. -/
def serialLt32 (a b : Nat) : Bool :=
  let d := (b + (4294967296 - a % 4294967296)) % 4294967296
  decide (0 < d ∧ d < 2147483648)

/-- Serial `a ≤ b` on 32 bits: equality or strictly serially less.  Modelled
from the spec (partial order of RFC 1982; incomparable pairs are neither). -/
def serialLe32 (a b : Nat) : Bool := a == b || serialLt32 a b

/-- Serial `a ≥ b` on 32 bits. -/
def serialGe32 (a b : Nat) : Bool := a == b || serialLt32 b a

/-- RFC 1982 serial-number strict order on 16-bit values (stream sequence
numbers).  Modelled from the spec, like `serialLt32`. -/
def serialLt16 (a b : Nat) : Bool :=
  let d := (b + (65536 - a % 65536)) % 65536
  decide (0 < d ∧ d < 32768)

/-- The error kinds of the crate (`SctpError` in `src/lib.rs`; the codec and
recovery sources additionally use the `BufferTooShort` and `InvalidPathId`
variants). -/
inductive SctpError where
  | done
  | invalidChunk
  | tooShort
  | invalidValue
  | protocolViolation
  | notFound
  | ootb
  | bufferTooShort
  | invalidPathId
deriving DecidableEq, Repr

/-- Result of running a piece of Rust code: a value, an `Err`, or a panic
(failed assertion, out-of-bounds index, `unwrap` of an error). -/
inductive Outcome (α : Type) where
  | crash
  | fail (e : SctpError)
  | ok (v : α)
deriving DecidableEq, Repr

/-! ## Mapping array (`src/sctp_mapping_array.rs`) -/

/-- The reception mapping array: a byte bitmap over received TSNs plus three
serial cursors (the unused `trace_id` logging field is omitted). -/
structure SctpMappingArray where
  storage : List Nat
  base_tsn : Nat
  largest_tsn : Nat
  cummulative_tsn : Nat
deriving DecidableEq, Repr

/-- State built by `SctpMappingArray::initialize(init_tsn)`: `base_tsn` is
the initial TSN, both other cursors are one less (serially), and the bitmap
is 256 zero bytes.  The source mutates `self` and returns `Ok(init_tsn)`;
the embedding returns the new state. -/
def SctpMappingArray.initialized (init_tsn : Nat) : SctpMappingArray :=
  let initial_tsn_minus1 := if init_tsn = 0 then 4294967295 else init_tsn - 1
  { storage := List.replicate 256 0
    base_tsn := init_tsn
    largest_tsn := initial_tsn_minus1
    cummulative_tsn := initial_tsn_minus1 }

/-- Number of consecutive set bits of a byte starting from bit 0, scanning
bits 0..7 and stopping at the first clear bit — the inner `for i in 0..8`
loop of `SctpMappingArray::update`. -/
def lowOnes (b : Nat) : Nat :=
  if b >>> 0 &&& 1 = 1 then
    if b >>> 1 &&& 1 = 1 then
      if b >>> 2 &&& 1 = 1 then
        if b >>> 3 &&& 1 = 1 then
          if b >>> 4 &&& 1 = 1 then
            if b >>> 5 &&& 1 = 1 then
              if b >>> 6 &&& 1 = 1 then
                if b >>> 7 &&& 1 = 1 then 8 else 7
              else 6
            else 5
          else 4
        else 3
      else 2
    else 1
  else 0

/-- The leading-byte scan of `SctpMappingArray::update`: each leading `0xff`
byte advances the candidate cumulative TSN by 8 (wrapping) and counts one
`moved` byte; the first non-`0xff` byte contributes its low consecutive set
bits and stops the scan.  Returns the candidate cumulative TSN and `moved`. -/
def scanLoop (cumm moved : Nat) : List Nat → Nat × Nat
  | [] => (cumm, moved)
  | byte :: rest =>
    if byte = 255 then scanLoop ((cumm + 8) % 4294967296) (moved + 1) rest
    else ((cumm + lowOnes byte) % 4294967296, moved)

/-- Serial offset `tsn − base_tsn` as `update` computes it (wrap-around
handled by the explicit `0xffffffff − base + 1 + tsn` branch of the
source). -/
def SctpMappingArray.gapOf (m : SctpMappingArray) (tsn : Nat) : Nat :=
  if tsn ≥ m.base_tsn then tsn - m.base_tsn
  else 4294967295 - m.base_tsn + 1 + tsn

/-- The bit-setting statement of `update`:
`storage[gap >> 3] |= 0x01 << (gap & 0x07)`. -/
def setTsnBit (storage : List Nat) (gap : Nat) : List Nat :=
  storage.set (gap >>> 3) (storage.getD (gap >>> 3) 0 ||| (1 <<< (gap &&& 7)))

/-- The body of `SctpMappingArray::update` after its two serial checks and
the (implicit) bounds test succeeded: set the bit, update `largest_tsn`,
rescan the leading bytes, zero and rotate out the `moved` leading
fully-acked bytes while advancing `base_tsn` by 8, and report the new
cumulative TSN when it advanced serially. -/
def SctpMappingArray.updBody (m : SctpMappingArray) (tsn : Nat) :
    SctpMappingArray × Option Nat :=
  let gap := m.gapOf tsn
  let storage := setTsnBit m.storage gap
  let largest_tsn := if serialLt32 m.largest_tsn tsn then tsn else m.largest_tsn
  let start := if m.base_tsn = 0 then 4294967295 else m.base_tsn - 1
  let scanned := scanLoop start 0 storage
  let cummulative_tsn := scanned.1
  let moved := scanned.2
  let storage := if moved > 0 then
      (List.replicate moved 0 ++ storage.drop moved).rotate moved
    else storage
  let base_tsn := if moved > 0 then (m.base_tsn + 8) % 4294967296 else m.base_tsn
  if serialLt32 m.cummulative_tsn cummulative_tsn then
    ({ storage, base_tsn, largest_tsn, cummulative_tsn }, some cummulative_tsn)
  else
    ({ storage, base_tsn, largest_tsn, cummulative_tsn := m.cummulative_tsn }, none)

/-- `SctpMappingArray::update(tsn)`.  Fails with `InvalidValue` when `tsn`
is serially below `base_tsn` or below `cummulative_tsn`; otherwise runs
`updBody` — unless the byte offset reaches the storage length, in which
case the indexing panics (the source's `Vec::reserve` only grows capacity,
never the length) — the `crash` case. -/
def SctpMappingArray.update (m : SctpMappingArray) (tsn : Nat) :
    Outcome (SctpMappingArray × Option Nat) :=
  if serialLt32 tsn m.base_tsn then .fail .invalidValue
  else if serialLt32 tsn m.cummulative_tsn then .fail .invalidValue
  else if m.gapOf tsn >>> 3 < m.storage.length then .ok (m.updBody tsn)
  else .crash

/-- Fold a list of TSNs through `update`, keeping the state only while every
call returns `Ok` — `none` as soon as one call fails or panics.  A `some`
result is therefore a state reachable by `initialize` followed by successful
`update` calls only. -/
def SctpMappingArray.updateAllOk (m : SctpMappingArray) : List Nat → Option SctpMappingArray
  | [] => some m
  | t :: ts =>
    match m.update t with
    | .ok (m', _) => m'.updateAllOk ts
    | _ => none

/-! ## Gap-ack tracking table and SACK generation -/

/-- A SACK gap-ack block; `start`/`end` offsets (the source field `end` is
named `end_` here because `end` is a Lean keyword). -/
structure SctpGapAckBlock where
  start : Nat
  end_ : Nat
deriving DecidableEq, Repr

/-- One row of the per-byte ack-track table: whether bit 0 is set
(`right_edge`), whether bit 7 is set (`left_edge`), and the maximal runs of
set bits as in-byte gap blocks. -/
structure SctpAckTrack where
  right_edge : Bool
  left_edge : Bool
  gaps : List SctpGapAckBlock
deriving DecidableEq, Repr

/-- Rows 0x00..0x0f of the ack-track table. -/
def ackTrackRows0 : List SctpAckTrack := [
  SctpAckTrack.mk false false [],  -- 0x00
  SctpAckTrack.mk true false [SctpGapAckBlock.mk 0 0],  -- 0x01
  SctpAckTrack.mk false false [SctpGapAckBlock.mk 1 1],  -- 0x02
  SctpAckTrack.mk true false [SctpGapAckBlock.mk 0 1],  -- 0x03
  SctpAckTrack.mk false false [SctpGapAckBlock.mk 2 2],  -- 0x04
  SctpAckTrack.mk true false [SctpGapAckBlock.mk 0 0, SctpGapAckBlock.mk 2 2],  -- 0x05
  SctpAckTrack.mk false false [SctpGapAckBlock.mk 1 2],  -- 0x06
  SctpAckTrack.mk true false [SctpGapAckBlock.mk 0 2],  -- 0x07
  SctpAckTrack.mk false false [SctpGapAckBlock.mk 3 3],  -- 0x08
  SctpAckTrack.mk true false [SctpGapAckBlock.mk 0 0, SctpGapAckBlock.mk 3 3],  -- 0x09
  SctpAckTrack.mk false false [SctpGapAckBlock.mk 1 1, SctpGapAckBlock.mk 3 3],  -- 0x0a
  SctpAckTrack.mk true false [SctpGapAckBlock.mk 0 1, SctpGapAckBlock.mk 3 3],  -- 0x0b
  SctpAckTrack.mk false false [SctpGapAckBlock.mk 2 3],  -- 0x0c
  SctpAckTrack.mk true false [SctpGapAckBlock.mk 0 0, SctpGapAckBlock.mk 2 3],  -- 0x0d
  SctpAckTrack.mk false false [SctpGapAckBlock.mk 1 3],  -- 0x0e
  SctpAckTrack.mk true false [SctpGapAckBlock.mk 0 3]  -- 0x0f
]

/-- Rows 0x10..0x1f of the ack-track table. -/
def ackTrackRows1 : List SctpAckTrack := [
  SctpAckTrack.mk false false [SctpGapAckBlock.mk 4 4],  -- 0x10
  SctpAckTrack.mk true false [SctpGapAckBlock.mk 0 0, SctpGapAckBlock.mk 4 4],  -- 0x11
  SctpAckTrack.mk false false [SctpGapAckBlock.mk 1 1, SctpGapAckBlock.mk 4 4],  -- 0x12
  SctpAckTrack.mk true false [SctpGapAckBlock.mk 0 1, SctpGapAckBlock.mk 4 4],  -- 0x13
  SctpAckTrack.mk false false [SctpGapAckBlock.mk 2 2, SctpGapAckBlock.mk 4 4],  -- 0x14
  SctpAckTrack.mk true false [SctpGapAckBlock.mk 0 0, SctpGapAckBlock.mk 2 2, SctpGapAckBlock.mk 4 4],  -- 0x15
  SctpAckTrack.mk false false [SctpGapAckBlock.mk 1 2, SctpGapAckBlock.mk 4 4],  -- 0x16
  SctpAckTrack.mk true false [SctpGapAckBlock.mk 0 2, SctpGapAckBlock.mk 4 4],  -- 0x17
  SctpAckTrack.mk false false [SctpGapAckBlock.mk 3 4],  -- 0x18
  SctpAckTrack.mk true false [SctpGapAckBlock.mk 0 0, SctpGapAckBlock.mk 3 4],  -- 0x19
  SctpAckTrack.mk false false [SctpGapAckBlock.mk 1 1, SctpGapAckBlock.mk 3 4],  -- 0x1a
  SctpAckTrack.mk true false [SctpGapAckBlock.mk 0 1, SctpGapAckBlock.mk 3 4],  -- 0x1b
  SctpAckTrack.mk false false [SctpGapAckBlock.mk 2 4],  -- 0x1c
  SctpAckTrack.mk true false [SctpGapAckBlock.mk 0 0, SctpGapAckBlock.mk 2 4],  -- 0x1d
  SctpAckTrack.mk false false [SctpGapAckBlock.mk 1 4],  -- 0x1e
  SctpAckTrack.mk true false [SctpGapAckBlock.mk 0 4]  -- 0x1f
]

/-- Rows 0x20..0x2f of the ack-track table. -/
def ackTrackRows2 : List SctpAckTrack := [
  SctpAckTrack.mk false false [SctpGapAckBlock.mk 5 5],  -- 0x20
  SctpAckTrack.mk true false [SctpGapAckBlock.mk 0 0, SctpGapAckBlock.mk 5 5],  -- 0x21
  SctpAckTrack.mk false false [SctpGapAckBlock.mk 1 1, SctpGapAckBlock.mk 5 5],  -- 0x22
  SctpAckTrack.mk true false [SctpGapAckBlock.mk 0 1, SctpGapAckBlock.mk 5 5],  -- 0x23
  SctpAckTrack.mk false false [SctpGapAckBlock.mk 2 2, SctpGapAckBlock.mk 5 5],  -- 0x24
  SctpAckTrack.mk true false [SctpGapAckBlock.mk 0 0, SctpGapAckBlock.mk 2 2, SctpGapAckBlock.mk 5 5],  -- 0x25
  SctpAckTrack.mk false false [SctpGapAckBlock.mk 1 2, SctpGapAckBlock.mk 5 5],  -- 0x26
  SctpAckTrack.mk true false [SctpGapAckBlock.mk 0 2, SctpGapAckBlock.mk 5 5],  -- 0x27
  SctpAckTrack.mk false false [SctpGapAckBlock.mk 3 3, SctpGapAckBlock.mk 5 5],  -- 0x28
  SctpAckTrack.mk true false [SctpGapAckBlock.mk 0 0, SctpGapAckBlock.mk 3 3, SctpGapAckBlock.mk 5 5],  -- 0x29
  SctpAckTrack.mk false false [SctpGapAckBlock.mk 1 1, SctpGapAckBlock.mk 3 3, SctpGapAckBlock.mk 5 5],  -- 0x2a
  SctpAckTrack.mk true false [SctpGapAckBlock.mk 0 1, SctpGapAckBlock.mk 3 3, SctpGapAckBlock.mk 5 5],  -- 0x2b
  SctpAckTrack.mk false false [SctpGapAckBlock.mk 2 3, SctpGapAckBlock.mk 5 5],  -- 0x2c
  SctpAckTrack.mk true false [SctpGapAckBlock.mk 0 0, SctpGapAckBlock.mk 2 3, SctpGapAckBlock.mk 5 5],  -- 0x2d
  SctpAckTrack.mk false false [SctpGapAckBlock.mk 1 3, SctpGapAckBlock.mk 5 5],  -- 0x2e
  SctpAckTrack.mk true false [SctpGapAckBlock.mk 0 3, SctpGapAckBlock.mk 5 5]  -- 0x2f
]

/-- Rows 0x30..0x3f of the ack-track table. -/
def ackTrackRows3 : List SctpAckTrack := [
  SctpAckTrack.mk false false [SctpGapAckBlock.mk 4 5],  -- 0x30
  SctpAckTrack.mk true false [SctpGapAckBlock.mk 0 0, SctpGapAckBlock.mk 4 5],  -- 0x31
  SctpAckTrack.mk false false [SctpGapAckBlock.mk 1 1, SctpGapAckBlock.mk 4 5],  -- 0x32
  SctpAckTrack.mk true false [SctpGapAckBlock.mk 0 1, SctpGapAckBlock.mk 4 5],  -- 0x33
  SctpAckTrack.mk false false [SctpGapAckBlock.mk 2 2, SctpGapAckBlock.mk 4 5],  -- 0x34
  SctpAckTrack.mk true false [SctpGapAckBlock.mk 0 0, SctpGapAckBlock.mk 2 2, SctpGapAckBlock.mk 4 5],  -- 0x35
  SctpAckTrack.mk false false [SctpGapAckBlock.mk 1 2, SctpGapAckBlock.mk 4 5],  -- 0x36
  SctpAckTrack.mk true false [SctpGapAckBlock.mk 0 2, SctpGapAckBlock.mk 4 5],  -- 0x37
  SctpAckTrack.mk false false [SctpGapAckBlock.mk 3 5],  -- 0x38
  SctpAckTrack.mk true false [SctpGapAckBlock.mk 0 0, SctpGapAckBlock.mk 3 5],  -- 0x39
  SctpAckTrack.mk false false [SctpGapAckBlock.mk 1 1, SctpGapAckBlock.mk 3 5],  -- 0x3a
  SctpAckTrack.mk true false [SctpGapAckBlock.mk 0 1, SctpGapAckBlock.mk 3 5],  -- 0x3b
  SctpAckTrack.mk false false [SctpGapAckBlock.mk 2 5],  -- 0x3c
  SctpAckTrack.mk true false [SctpGapAckBlock.mk 0 0, SctpGapAckBlock.mk 2 5],  -- 0x3d
  SctpAckTrack.mk false false [SctpGapAckBlock.mk 1 5],  -- 0x3e
  SctpAckTrack.mk true false [SctpGapAckBlock.mk 0 5]  -- 0x3f
]

/-- Rows 0x40..0x4f of the ack-track table. -/
def ackTrackRows4 : List SctpAckTrack := [
  SctpAckTrack.mk false false [SctpGapAckBlock.mk 6 6],  -- 0x40
  SctpAckTrack.mk true false [SctpGapAckBlock.mk 0 0, SctpGapAckBlock.mk 6 6],  -- 0x41
  SctpAckTrack.mk false false [SctpGapAckBlock.mk 1 1, SctpGapAckBlock.mk 6 6],  -- 0x42
  SctpAckTrack.mk true false [SctpGapAckBlock.mk 0 1, SctpGapAckBlock.mk 6 6],  -- 0x43
  SctpAckTrack.mk false false [SctpGapAckBlock.mk 2 2, SctpGapAckBlock.mk 6 6],  -- 0x44
  SctpAckTrack.mk true false [SctpGapAckBlock.mk 0 0, SctpGapAckBlock.mk 2 2, SctpGapAckBlock.mk 6 6],  -- 0x45
  SctpAckTrack.mk false false [SctpGapAckBlock.mk 1 2, SctpGapAckBlock.mk 6 6],  -- 0x46
  SctpAckTrack.mk true false [SctpGapAckBlock.mk 0 2, SctpGapAckBlock.mk 6 6],  -- 0x47
  SctpAckTrack.mk false false [SctpGapAckBlock.mk 3 3, SctpGapAckBlock.mk 6 6],  -- 0x48
  SctpAckTrack.mk true false [SctpGapAckBlock.mk 0 0, SctpGapAckBlock.mk 3 3, SctpGapAckBlock.mk 6 6],  -- 0x49
  SctpAckTrack.mk false false [SctpGapAckBlock.mk 1 1, SctpGapAckBlock.mk 3 3, SctpGapAckBlock.mk 6 6],  -- 0x4a
  SctpAckTrack.mk true false [SctpGapAckBlock.mk 0 1, SctpGapAckBlock.mk 3 3, SctpGapAckBlock.mk 6 6],  -- 0x4b
  SctpAckTrack.mk false false [SctpGapAckBlock.mk 2 3, SctpGapAckBlock.mk 6 6],  -- 0x4c
  SctpAckTrack.mk true false [SctpGapAckBlock.mk 0 0, SctpGapAckBlock.mk 2 3, SctpGapAckBlock.mk 6 6],  -- 0x4d
  SctpAckTrack.mk false false [SctpGapAckBlock.mk 1 3, SctpGapAckBlock.mk 6 6],  -- 0x4e
  SctpAckTrack.mk true false [SctpGapAckBlock.mk 0 3, SctpGapAckBlock.mk 6 6]  -- 0x4f
]

/-- Rows 0x50..0x5f of the ack-track table. -/
def ackTrackRows5 : List SctpAckTrack := [
  SctpAckTrack.mk false false [SctpGapAckBlock.mk 4 4, SctpGapAckBlock.mk 6 6],  -- 0x50
  SctpAckTrack.mk true false [SctpGapAckBlock.mk 0 0, SctpGapAckBlock.mk 4 4, SctpGapAckBlock.mk 6 6],  -- 0x51
  SctpAckTrack.mk false false [SctpGapAckBlock.mk 1 1, SctpGapAckBlock.mk 4 4, SctpGapAckBlock.mk 6 6],  -- 0x52
  SctpAckTrack.mk true false [SctpGapAckBlock.mk 0 1, SctpGapAckBlock.mk 4 4, SctpGapAckBlock.mk 6 6],  -- 0x53
  SctpAckTrack.mk false false [SctpGapAckBlock.mk 2 2, SctpGapAckBlock.mk 4 4, SctpGapAckBlock.mk 6 6],  -- 0x54
  SctpAckTrack.mk true false [SctpGapAckBlock.mk 0 0, SctpGapAckBlock.mk 2 2, SctpGapAckBlock.mk 4 4, SctpGapAckBlock.mk 6 6],  -- 0x55
  SctpAckTrack.mk false false [SctpGapAckBlock.mk 1 2, SctpGapAckBlock.mk 4 4, SctpGapAckBlock.mk 6 6],  -- 0x56
  SctpAckTrack.mk true false [SctpGapAckBlock.mk 0 2, SctpGapAckBlock.mk 4 4, SctpGapAckBlock.mk 6 6],  -- 0x57
  SctpAckTrack.mk false false [SctpGapAckBlock.mk 3 4, SctpGapAckBlock.mk 6 6],  -- 0x58
  SctpAckTrack.mk true false [SctpGapAckBlock.mk 0 0, SctpGapAckBlock.mk 3 4, SctpGapAckBlock.mk 6 6],  -- 0x59
  SctpAckTrack.mk false false [SctpGapAckBlock.mk 1 1, SctpGapAckBlock.mk 3 4, SctpGapAckBlock.mk 6 6],  -- 0x5a
  SctpAckTrack.mk true false [SctpGapAckBlock.mk 0 1, SctpGapAckBlock.mk 3 4, SctpGapAckBlock.mk 6 6],  -- 0x5b
  SctpAckTrack.mk false false [SctpGapAckBlock.mk 2 4, SctpGapAckBlock.mk 6 6],  -- 0x5c
  SctpAckTrack.mk true false [SctpGapAckBlock.mk 0 0, SctpGapAckBlock.mk 2 4, SctpGapAckBlock.mk 6 6],  -- 0x5d
  SctpAckTrack.mk false false [SctpGapAckBlock.mk 1 4, SctpGapAckBlock.mk 6 6],  -- 0x5e
  SctpAckTrack.mk true false [SctpGapAckBlock.mk 0 4, SctpGapAckBlock.mk 6 6]  -- 0x5f
]

/-- Rows 0x60..0x6f of the ack-track table. -/
def ackTrackRows6 : List SctpAckTrack := [
  SctpAckTrack.mk false false [SctpGapAckBlock.mk 5 6],  -- 0x60
  SctpAckTrack.mk true false [SctpGapAckBlock.mk 0 0, SctpGapAckBlock.mk 5 6],  -- 0x61
  SctpAckTrack.mk false false [SctpGapAckBlock.mk 1 1, SctpGapAckBlock.mk 5 6],  -- 0x62
  SctpAckTrack.mk true false [SctpGapAckBlock.mk 0 1, SctpGapAckBlock.mk 5 6],  -- 0x63
  SctpAckTrack.mk false false [SctpGapAckBlock.mk 2 2, SctpGapAckBlock.mk 5 6],  -- 0x64
  SctpAckTrack.mk true false [SctpGapAckBlock.mk 0 0, SctpGapAckBlock.mk 2 2, SctpGapAckBlock.mk 5 6],  -- 0x65
  SctpAckTrack.mk false false [SctpGapAckBlock.mk 1 2, SctpGapAckBlock.mk 5 6],  -- 0x66
  SctpAckTrack.mk true false [SctpGapAckBlock.mk 0 2, SctpGapAckBlock.mk 5 6],  -- 0x67
  SctpAckTrack.mk false false [SctpGapAckBlock.mk 3 3, SctpGapAckBlock.mk 5 6],  -- 0x68
  SctpAckTrack.mk true false [SctpGapAckBlock.mk 0 0, SctpGapAckBlock.mk 3 3, SctpGapAckBlock.mk 5 6],  -- 0x69
  SctpAckTrack.mk false false [SctpGapAckBlock.mk 1 1, SctpGapAckBlock.mk 3 3, SctpGapAckBlock.mk 5 6],  -- 0x6a
  SctpAckTrack.mk true false [SctpGapAckBlock.mk 0 1, SctpGapAckBlock.mk 3 3, SctpGapAckBlock.mk 5 6],  -- 0x6b
  SctpAckTrack.mk false false [SctpGapAckBlock.mk 2 3, SctpGapAckBlock.mk 5 6],  -- 0x6c
  SctpAckTrack.mk true false [SctpGapAckBlock.mk 0 0, SctpGapAckBlock.mk 2 3, SctpGapAckBlock.mk 5 6],  -- 0x6d
  SctpAckTrack.mk false false [SctpGapAckBlock.mk 1 3, SctpGapAckBlock.mk 5 6],  -- 0x6e
  SctpAckTrack.mk true false [SctpGapAckBlock.mk 0 3, SctpGapAckBlock.mk 5 6]  -- 0x6f
]

/-- Rows 0x70..0x7f of the ack-track table. -/
def ackTrackRows7 : List SctpAckTrack := [
  SctpAckTrack.mk false false [SctpGapAckBlock.mk 4 6],  -- 0x70
  SctpAckTrack.mk true false [SctpGapAckBlock.mk 0 0, SctpGapAckBlock.mk 4 6],  -- 0x71
  SctpAckTrack.mk false false [SctpGapAckBlock.mk 1 1, SctpGapAckBlock.mk 4 6],  -- 0x72
  SctpAckTrack.mk true false [SctpGapAckBlock.mk 0 1, SctpGapAckBlock.mk 4 6],  -- 0x73
  SctpAckTrack.mk false false [SctpGapAckBlock.mk 2 2, SctpGapAckBlock.mk 4 6],  -- 0x74
  SctpAckTrack.mk true false [SctpGapAckBlock.mk 0 0, SctpGapAckBlock.mk 2 2, SctpGapAckBlock.mk 4 6],  -- 0x75
  SctpAckTrack.mk false false [SctpGapAckBlock.mk 1 2, SctpGapAckBlock.mk 4 6],  -- 0x76
  SctpAckTrack.mk true false [SctpGapAckBlock.mk 0 2, SctpGapAckBlock.mk 4 6],  -- 0x77
  SctpAckTrack.mk false false [SctpGapAckBlock.mk 3 6],  -- 0x78
  SctpAckTrack.mk true false [SctpGapAckBlock.mk 0 0, SctpGapAckBlock.mk 3 6],  -- 0x79
  SctpAckTrack.mk false false [SctpGapAckBlock.mk 1 1, SctpGapAckBlock.mk 3 6],  -- 0x7a
  SctpAckTrack.mk true false [SctpGapAckBlock.mk 0 1, SctpGapAckBlock.mk 3 6],  -- 0x7b
  SctpAckTrack.mk false false [SctpGapAckBlock.mk 2 6],  -- 0x7c
  SctpAckTrack.mk true false [SctpGapAckBlock.mk 0 0, SctpGapAckBlock.mk 2 6],  -- 0x7d
  SctpAckTrack.mk false false [SctpGapAckBlock.mk 1 6],  -- 0x7e
  SctpAckTrack.mk true false [SctpGapAckBlock.mk 0 6]  -- 0x7f
]

/-- Rows 0x80..0x8f of the ack-track table. -/
def ackTrackRows8 : List SctpAckTrack := [
  SctpAckTrack.mk false true [SctpGapAckBlock.mk 7 7],  -- 0x80
  SctpAckTrack.mk true true [SctpGapAckBlock.mk 0 0, SctpGapAckBlock.mk 7 7],  -- 0x81
  SctpAckTrack.mk false true [SctpGapAckBlock.mk 1 1, SctpGapAckBlock.mk 7 7],  -- 0x82
  SctpAckTrack.mk true true [SctpGapAckBlock.mk 0 1, SctpGapAckBlock.mk 7 7],  -- 0x83
  SctpAckTrack.mk false true [SctpGapAckBlock.mk 2 2, SctpGapAckBlock.mk 7 7],  -- 0x84
  SctpAckTrack.mk true true [SctpGapAckBlock.mk 0 0, SctpGapAckBlock.mk 2 2, SctpGapAckBlock.mk 7 7],  -- 0x85
  SctpAckTrack.mk false true [SctpGapAckBlock.mk 1 2, SctpGapAckBlock.mk 7 7],  -- 0x86
  SctpAckTrack.mk true true [SctpGapAckBlock.mk 0 2, SctpGapAckBlock.mk 7 7],  -- 0x87
  SctpAckTrack.mk false true [SctpGapAckBlock.mk 3 3, SctpGapAckBlock.mk 7 7],  -- 0x88
  SctpAckTrack.mk true true [SctpGapAckBlock.mk 0 0, SctpGapAckBlock.mk 3 3, SctpGapAckBlock.mk 7 7],  -- 0x89
  SctpAckTrack.mk false true [SctpGapAckBlock.mk 1 1, SctpGapAckBlock.mk 3 3, SctpGapAckBlock.mk 7 7],  -- 0x8a
  SctpAckTrack.mk true true [SctpGapAckBlock.mk 0 1, SctpGapAckBlock.mk 3 3, SctpGapAckBlock.mk 7 7],  -- 0x8b
  SctpAckTrack.mk false true [SctpGapAckBlock.mk 2 3, SctpGapAckBlock.mk 7 7],  -- 0x8c
  SctpAckTrack.mk true true [SctpGapAckBlock.mk 0 0, SctpGapAckBlock.mk 2 3, SctpGapAckBlock.mk 7 7],  -- 0x8d
  SctpAckTrack.mk false true [SctpGapAckBlock.mk 1 3, SctpGapAckBlock.mk 7 7],  -- 0x8e
  SctpAckTrack.mk true true [SctpGapAckBlock.mk 0 3, SctpGapAckBlock.mk 7 7]  -- 0x8f
]

/-- Rows 0x90..0x9f of the ack-track table. -/
def ackTrackRows9 : List SctpAckTrack := [
  SctpAckTrack.mk false true [SctpGapAckBlock.mk 4 4, SctpGapAckBlock.mk 7 7],  -- 0x90
  SctpAckTrack.mk true true [SctpGapAckBlock.mk 0 0, SctpGapAckBlock.mk 4 4, SctpGapAckBlock.mk 7 7],  -- 0x91
  SctpAckTrack.mk false true [SctpGapAckBlock.mk 1 1, SctpGapAckBlock.mk 4 4, SctpGapAckBlock.mk 7 7],  -- 0x92
  SctpAckTrack.mk true true [SctpGapAckBlock.mk 0 1, SctpGapAckBlock.mk 4 4, SctpGapAckBlock.mk 7 7],  -- 0x93
  SctpAckTrack.mk false true [SctpGapAckBlock.mk 2 2, SctpGapAckBlock.mk 4 4, SctpGapAckBlock.mk 7 7],  -- 0x94
  SctpAckTrack.mk true true [SctpGapAckBlock.mk 0 0, SctpGapAckBlock.mk 2 2, SctpGapAckBlock.mk 4 4, SctpGapAckBlock.mk 7 7],  -- 0x95
  SctpAckTrack.mk false true [SctpGapAckBlock.mk 1 2, SctpGapAckBlock.mk 4 4, SctpGapAckBlock.mk 7 7],  -- 0x96
  SctpAckTrack.mk true true [SctpGapAckBlock.mk 0 2, SctpGapAckBlock.mk 4 4, SctpGapAckBlock.mk 7 7],  -- 0x97
  SctpAckTrack.mk false true [SctpGapAckBlock.mk 3 4, SctpGapAckBlock.mk 7 7],  -- 0x98
  SctpAckTrack.mk true true [SctpGapAckBlock.mk 0 0, SctpGapAckBlock.mk 3 4, SctpGapAckBlock.mk 7 7],  -- 0x99
  SctpAckTrack.mk false true [SctpGapAckBlock.mk 1 1, SctpGapAckBlock.mk 3 4, SctpGapAckBlock.mk 7 7],  -- 0x9a
  SctpAckTrack.mk true true [SctpGapAckBlock.mk 0 1, SctpGapAckBlock.mk 3 4, SctpGapAckBlock.mk 7 7],  -- 0x9b
  SctpAckTrack.mk false true [SctpGapAckBlock.mk 2 4, SctpGapAckBlock.mk 7 7],  -- 0x9c
  SctpAckTrack.mk true true [SctpGapAckBlock.mk 0 0, SctpGapAckBlock.mk 2 4, SctpGapAckBlock.mk 7 7],  -- 0x9d
  SctpAckTrack.mk false true [SctpGapAckBlock.mk 1 4, SctpGapAckBlock.mk 7 7],  -- 0x9e
  SctpAckTrack.mk true true [SctpGapAckBlock.mk 0 4, SctpGapAckBlock.mk 7 7]  -- 0x9f
]

/-- Rows 0xa0..0xaf of the ack-track table. -/
def ackTrackRowsa : List SctpAckTrack := [
  SctpAckTrack.mk false true [SctpGapAckBlock.mk 5 5, SctpGapAckBlock.mk 7 7],  -- 0xa0
  SctpAckTrack.mk true true [SctpGapAckBlock.mk 0 0, SctpGapAckBlock.mk 5 5, SctpGapAckBlock.mk 7 7],  -- 0xa1
  SctpAckTrack.mk false true [SctpGapAckBlock.mk 1 1, SctpGapAckBlock.mk 5 5, SctpGapAckBlock.mk 7 7],  -- 0xa2
  SctpAckTrack.mk true true [SctpGapAckBlock.mk 0 1, SctpGapAckBlock.mk 5 5, SctpGapAckBlock.mk 7 7],  -- 0xa3
  SctpAckTrack.mk false true [SctpGapAckBlock.mk 2 2, SctpGapAckBlock.mk 5 5, SctpGapAckBlock.mk 7 7],  -- 0xa4
  SctpAckTrack.mk true true [SctpGapAckBlock.mk 0 0, SctpGapAckBlock.mk 2 2, SctpGapAckBlock.mk 5 5, SctpGapAckBlock.mk 7 7],  -- 0xa5
  SctpAckTrack.mk false true [SctpGapAckBlock.mk 1 2, SctpGapAckBlock.mk 5 5, SctpGapAckBlock.mk 7 7],  -- 0xa6
  SctpAckTrack.mk true true [SctpGapAckBlock.mk 0 2, SctpGapAckBlock.mk 5 5, SctpGapAckBlock.mk 7 7],  -- 0xa7
  SctpAckTrack.mk false true [SctpGapAckBlock.mk 3 3, SctpGapAckBlock.mk 5 5, SctpGapAckBlock.mk 7 7],  -- 0xa8
  SctpAckTrack.mk true true [SctpGapAckBlock.mk 0 0, SctpGapAckBlock.mk 3 3, SctpGapAckBlock.mk 5 5, SctpGapAckBlock.mk 7 7],  -- 0xa9
  SctpAckTrack.mk false true [SctpGapAckBlock.mk 1 1, SctpGapAckBlock.mk 3 3, SctpGapAckBlock.mk 5 5, SctpGapAckBlock.mk 7 7],  -- 0xaa
  SctpAckTrack.mk true true [SctpGapAckBlock.mk 0 1, SctpGapAckBlock.mk 3 3, SctpGapAckBlock.mk 5 5, SctpGapAckBlock.mk 7 7],  -- 0xab
  SctpAckTrack.mk false true [SctpGapAckBlock.mk 2 3, SctpGapAckBlock.mk 5 5, SctpGapAckBlock.mk 7 7],  -- 0xac
  SctpAckTrack.mk true true [SctpGapAckBlock.mk 0 0, SctpGapAckBlock.mk 2 3, SctpGapAckBlock.mk 5 5, SctpGapAckBlock.mk 7 7],  -- 0xad
  SctpAckTrack.mk false true [SctpGapAckBlock.mk 1 3, SctpGapAckBlock.mk 5 5, SctpGapAckBlock.mk 7 7],  -- 0xae
  SctpAckTrack.mk true true [SctpGapAckBlock.mk 0 3, SctpGapAckBlock.mk 5 5, SctpGapAckBlock.mk 7 7]  -- 0xaf
]

/-- Rows 0xb0..0xbf of the ack-track table. -/
def ackTrackRowsb : List SctpAckTrack := [
  SctpAckTrack.mk false true [SctpGapAckBlock.mk 4 5, SctpGapAckBlock.mk 7 7],  -- 0xb0
  SctpAckTrack.mk true true [SctpGapAckBlock.mk 0 0, SctpGapAckBlock.mk 4 5, SctpGapAckBlock.mk 7 7],  -- 0xb1
  SctpAckTrack.mk false true [SctpGapAckBlock.mk 1 1, SctpGapAckBlock.mk 4 5, SctpGapAckBlock.mk 7 7],  -- 0xb2
  SctpAckTrack.mk true true [SctpGapAckBlock.mk 0 1, SctpGapAckBlock.mk 4 5, SctpGapAckBlock.mk 7 7],  -- 0xb3
  SctpAckTrack.mk false true [SctpGapAckBlock.mk 2 2, SctpGapAckBlock.mk 4 5, SctpGapAckBlock.mk 7 7],  -- 0xb4
  SctpAckTrack.mk true true [SctpGapAckBlock.mk 0 0, SctpGapAckBlock.mk 2 2, SctpGapAckBlock.mk 4 5, SctpGapAckBlock.mk 7 7],  -- 0xb5
  SctpAckTrack.mk false true [SctpGapAckBlock.mk 1 2, SctpGapAckBlock.mk 4 5, SctpGapAckBlock.mk 7 7],  -- 0xb6
  SctpAckTrack.mk true true [SctpGapAckBlock.mk 0 2, SctpGapAckBlock.mk 4 5, SctpGapAckBlock.mk 7 7],  -- 0xb7
  SctpAckTrack.mk false true [SctpGapAckBlock.mk 3 5, SctpGapAckBlock.mk 7 7],  -- 0xb8
  SctpAckTrack.mk true true [SctpGapAckBlock.mk 0 0, SctpGapAckBlock.mk 3 5, SctpGapAckBlock.mk 7 7],  -- 0xb9
  SctpAckTrack.mk false true [SctpGapAckBlock.mk 1 1, SctpGapAckBlock.mk 3 5, SctpGapAckBlock.mk 7 7],  -- 0xba
  SctpAckTrack.mk true true [SctpGapAckBlock.mk 0 1, SctpGapAckBlock.mk 3 5, SctpGapAckBlock.mk 7 7],  -- 0xbb
  SctpAckTrack.mk false true [SctpGapAckBlock.mk 2 5, SctpGapAckBlock.mk 7 7],  -- 0xbc
  SctpAckTrack.mk true true [SctpGapAckBlock.mk 0 0, SctpGapAckBlock.mk 2 5, SctpGapAckBlock.mk 7 7],  -- 0xbd
  SctpAckTrack.mk false true [SctpGapAckBlock.mk 1 5, SctpGapAckBlock.mk 7 7],  -- 0xbe
  SctpAckTrack.mk true true [SctpGapAckBlock.mk 0 5, SctpGapAckBlock.mk 7 7]  -- 0xbf
]

/-- Rows 0xc0..0xcf of the ack-track table. -/
def ackTrackRowsc : List SctpAckTrack := [
  SctpAckTrack.mk false true [SctpGapAckBlock.mk 6 7],  -- 0xc0
  SctpAckTrack.mk true true [SctpGapAckBlock.mk 0 0, SctpGapAckBlock.mk 6 7],  -- 0xc1
  SctpAckTrack.mk false true [SctpGapAckBlock.mk 1 1, SctpGapAckBlock.mk 6 7],  -- 0xc2
  SctpAckTrack.mk true true [SctpGapAckBlock.mk 0 1, SctpGapAckBlock.mk 6 7],  -- 0xc3
  SctpAckTrack.mk false true [SctpGapAckBlock.mk 2 2, SctpGapAckBlock.mk 6 7],  -- 0xc4
  SctpAckTrack.mk true true [SctpGapAckBlock.mk 0 0, SctpGapAckBlock.mk 2 2, SctpGapAckBlock.mk 6 7],  -- 0xc5
  SctpAckTrack.mk false true [SctpGapAckBlock.mk 1 2, SctpGapAckBlock.mk 6 7],  -- 0xc6
  SctpAckTrack.mk true true [SctpGapAckBlock.mk 0 2, SctpGapAckBlock.mk 6 7],  -- 0xc7
  SctpAckTrack.mk false true [SctpGapAckBlock.mk 3 3, SctpGapAckBlock.mk 6 7],  -- 0xc8
  SctpAckTrack.mk true true [SctpGapAckBlock.mk 0 0, SctpGapAckBlock.mk 3 3, SctpGapAckBlock.mk 6 7],  -- 0xc9
  SctpAckTrack.mk false true [SctpGapAckBlock.mk 1 1, SctpGapAckBlock.mk 3 3, SctpGapAckBlock.mk 6 7],  -- 0xca
  SctpAckTrack.mk true true [SctpGapAckBlock.mk 0 1, SctpGapAckBlock.mk 3 3, SctpGapAckBlock.mk 6 7],  -- 0xcb
  SctpAckTrack.mk false true [SctpGapAckBlock.mk 2 3, SctpGapAckBlock.mk 6 7],  -- 0xcc
  SctpAckTrack.mk true true [SctpGapAckBlock.mk 0 0, SctpGapAckBlock.mk 2 3, SctpGapAckBlock.mk 6 7],  -- 0xcd
  SctpAckTrack.mk false true [SctpGapAckBlock.mk 1 3, SctpGapAckBlock.mk 6 7],  -- 0xce
  SctpAckTrack.mk true true [SctpGapAckBlock.mk 0 3, SctpGapAckBlock.mk 6 7]  -- 0xcf
]

/-- Rows 0xd0..0xdf of the ack-track table. -/
def ackTrackRowsd : List SctpAckTrack := [
  SctpAckTrack.mk false true [SctpGapAckBlock.mk 4 4, SctpGapAckBlock.mk 6 7],  -- 0xd0
  SctpAckTrack.mk true true [SctpGapAckBlock.mk 0 0, SctpGapAckBlock.mk 4 4, SctpGapAckBlock.mk 6 7],  -- 0xd1
  SctpAckTrack.mk false true [SctpGapAckBlock.mk 1 1, SctpGapAckBlock.mk 4 4, SctpGapAckBlock.mk 6 7],  -- 0xd2
  SctpAckTrack.mk true true [SctpGapAckBlock.mk 0 1, SctpGapAckBlock.mk 4 4, SctpGapAckBlock.mk 6 7],  -- 0xd3
  SctpAckTrack.mk false true [SctpGapAckBlock.mk 2 2, SctpGapAckBlock.mk 4 4, SctpGapAckBlock.mk 6 7],  -- 0xd4
  SctpAckTrack.mk true true [SctpGapAckBlock.mk 0 0, SctpGapAckBlock.mk 2 2, SctpGapAckBlock.mk 4 4, SctpGapAckBlock.mk 6 7],  -- 0xd5
  SctpAckTrack.mk false true [SctpGapAckBlock.mk 1 2, SctpGapAckBlock.mk 4 4, SctpGapAckBlock.mk 6 7],  -- 0xd6
  SctpAckTrack.mk true true [SctpGapAckBlock.mk 0 2, SctpGapAckBlock.mk 4 4, SctpGapAckBlock.mk 6 7],  -- 0xd7
  SctpAckTrack.mk false true [SctpGapAckBlock.mk 3 4, SctpGapAckBlock.mk 6 7],  -- 0xd8
  SctpAckTrack.mk true true [SctpGapAckBlock.mk 0 0, SctpGapAckBlock.mk 3 4, SctpGapAckBlock.mk 6 7],  -- 0xd9
  SctpAckTrack.mk false true [SctpGapAckBlock.mk 1 1, SctpGapAckBlock.mk 3 4, SctpGapAckBlock.mk 6 7],  -- 0xda
  SctpAckTrack.mk true true [SctpGapAckBlock.mk 0 1, SctpGapAckBlock.mk 3 4, SctpGapAckBlock.mk 6 7],  -- 0xdb
  SctpAckTrack.mk false true [SctpGapAckBlock.mk 2 4, SctpGapAckBlock.mk 6 7],  -- 0xdc
  SctpAckTrack.mk true true [SctpGapAckBlock.mk 0 0, SctpGapAckBlock.mk 2 4, SctpGapAckBlock.mk 6 7],  -- 0xdd
  SctpAckTrack.mk false true [SctpGapAckBlock.mk 1 4, SctpGapAckBlock.mk 6 7],  -- 0xde
  SctpAckTrack.mk true true [SctpGapAckBlock.mk 0 4, SctpGapAckBlock.mk 6 7]  -- 0xdf
]

/-- Rows 0xe0..0xef of the ack-track table. -/
def ackTrackRowse : List SctpAckTrack := [
  SctpAckTrack.mk false true [SctpGapAckBlock.mk 5 7],  -- 0xe0
  SctpAckTrack.mk true true [SctpGapAckBlock.mk 0 0, SctpGapAckBlock.mk 5 7],  -- 0xe1
  SctpAckTrack.mk false true [SctpGapAckBlock.mk 1 1, SctpGapAckBlock.mk 5 7],  -- 0xe2
  SctpAckTrack.mk true true [SctpGapAckBlock.mk 0 1, SctpGapAckBlock.mk 5 7],  -- 0xe3
  SctpAckTrack.mk false true [SctpGapAckBlock.mk 2 2, SctpGapAckBlock.mk 5 7],  -- 0xe4
  SctpAckTrack.mk true true [SctpGapAckBlock.mk 0 0, SctpGapAckBlock.mk 2 2, SctpGapAckBlock.mk 5 7],  -- 0xe5
  SctpAckTrack.mk false true [SctpGapAckBlock.mk 1 2, SctpGapAckBlock.mk 5 7],  -- 0xe6
  SctpAckTrack.mk true true [SctpGapAckBlock.mk 0 2, SctpGapAckBlock.mk 5 7],  -- 0xe7
  SctpAckTrack.mk false true [SctpGapAckBlock.mk 3 3, SctpGapAckBlock.mk 5 7],  -- 0xe8
  SctpAckTrack.mk true true [SctpGapAckBlock.mk 0 0, SctpGapAckBlock.mk 3 3, SctpGapAckBlock.mk 5 7],  -- 0xe9
  SctpAckTrack.mk false true [SctpGapAckBlock.mk 1 1, SctpGapAckBlock.mk 3 3, SctpGapAckBlock.mk 5 7],  -- 0xea
  SctpAckTrack.mk true true [SctpGapAckBlock.mk 0 1, SctpGapAckBlock.mk 3 3, SctpGapAckBlock.mk 5 7],  -- 0xeb
  SctpAckTrack.mk false true [SctpGapAckBlock.mk 2 3, SctpGapAckBlock.mk 5 7],  -- 0xec
  SctpAckTrack.mk true true [SctpGapAckBlock.mk 0 0, SctpGapAckBlock.mk 2 3, SctpGapAckBlock.mk 5 7],  -- 0xed
  SctpAckTrack.mk false true [SctpGapAckBlock.mk 1 3, SctpGapAckBlock.mk 5 7],  -- 0xee
  SctpAckTrack.mk true true [SctpGapAckBlock.mk 0 3, SctpGapAckBlock.mk 5 7]  -- 0xef
]

/-- Rows 0xf0..0xff of the ack-track table. -/
def ackTrackRowsf : List SctpAckTrack := [
  SctpAckTrack.mk false true [SctpGapAckBlock.mk 4 7],  -- 0xf0
  SctpAckTrack.mk true true [SctpGapAckBlock.mk 0 0, SctpGapAckBlock.mk 4 7],  -- 0xf1
  SctpAckTrack.mk false true [SctpGapAckBlock.mk 1 1, SctpGapAckBlock.mk 4 7],  -- 0xf2
  SctpAckTrack.mk true true [SctpGapAckBlock.mk 0 1, SctpGapAckBlock.mk 4 7],  -- 0xf3
  SctpAckTrack.mk false true [SctpGapAckBlock.mk 2 2, SctpGapAckBlock.mk 4 7],  -- 0xf4
  SctpAckTrack.mk true true [SctpGapAckBlock.mk 0 0, SctpGapAckBlock.mk 2 2, SctpGapAckBlock.mk 4 7],  -- 0xf5
  SctpAckTrack.mk false true [SctpGapAckBlock.mk 1 2, SctpGapAckBlock.mk 4 7],  -- 0xf6
  SctpAckTrack.mk true true [SctpGapAckBlock.mk 0 2, SctpGapAckBlock.mk 4 7],  -- 0xf7
  SctpAckTrack.mk false true [SctpGapAckBlock.mk 3 7],  -- 0xf8
  SctpAckTrack.mk true true [SctpGapAckBlock.mk 0 0, SctpGapAckBlock.mk 3 7],  -- 0xf9
  SctpAckTrack.mk false true [SctpGapAckBlock.mk 1 1, SctpGapAckBlock.mk 3 7],  -- 0xfa
  SctpAckTrack.mk true true [SctpGapAckBlock.mk 0 1, SctpGapAckBlock.mk 3 7],  -- 0xfb
  SctpAckTrack.mk false true [SctpGapAckBlock.mk 2 7],  -- 0xfc
  SctpAckTrack.mk true true [SctpGapAckBlock.mk 0 0, SctpGapAckBlock.mk 2 7],  -- 0xfd
  SctpAckTrack.mk false true [SctpGapAckBlock.mk 1 7],  -- 0xfe
  SctpAckTrack.mk true true [SctpGapAckBlock.mk 0 7]  -- 0xff
]

/-- The 256-entry table of `SctpAckTrack::get`, one row per byte value, in
byte order 0x00..0xff, transcribed from the source's match arms. -/
def ackTrackTable : List SctpAckTrack :=
  ackTrackRows0 ++ ackTrackRows1 ++ ackTrackRows2 ++ ackTrackRows3 ++ ackTrackRows4 ++ ackTrackRows5 ++ ackTrackRows6 ++ ackTrackRows7 ++ ackTrackRows8 ++ ackTrackRows9 ++ ackTrackRowsa ++ ackTrackRowsb ++ ackTrackRowsc ++ ackTrackRowsd ++ ackTrackRowse ++ ackTrackRowsf

/-- `SctpAckTrack::get(byte)`: row lookup in the 256-entry table (total over
bytes; the default is never used for byte values). -/
def SctpAckTrack.get (byte : Nat) : SctpAckTrack :=
  ackTrackTable.getD byte ⟨false, false, []⟩

/-- The SACK chunk record (`SctpSackChunk` in `src/sctp_pkt.rs`). -/
structure SctpSackChunk where
  cum_ack : Nat
  a_rwnd : Nat
  num_gap_ack : Nat
  num_dup_ack : Nat
  gap_acks : List SctpGapAckBlock
  dup_acks : List Nat
deriving DecidableEq, Repr

/-- Two's-complement reinterpretation of a value truncated to 16 bits — the
Rust `as i16` cast. -/
def toI16 (n : Nat) : Int :=
  let r := n % 65536
  if r < 32768 then (r : Int) else (r : Int) - 65536

/-- Sign-extending reinterpretation of an `i16`-ranged integer as `u32` —
the Rust `as u32` cast applied to an `i16`. -/
def i16ToU32 (x : Int) : Nat := (x % 4294967296).toNat

/-- The inner `for gap in &track.gaps` loop of `genarate_sack`: push a new
gap-ack block unless the running block can be merged (previous byte had its
bit 7 set and this byte has bit 0 set), then extend the last block's end;
threads the `mergenable` flag.  Writing the last block's end panics when no
block exists (the source indexes `gap_ack_blocks[len - 1]`) — `crash`. -/
def gapFold (off : Int) (right_edge : Bool) :
    List SctpGapAckBlock → Bool → List SctpGapAckBlock →
    Outcome (Bool × List SctpGapAckBlock)
  | [], mergenable, acc => .ok (mergenable, acc)
  | gap :: gaps, mergenable, acc =>
    let s := if off < 0 then gap.start - (0 - off).toNat + 1
             else gap.start + off.toNat + 1
    let e := if off < 0 then gap.end_ - (0 - off).toNat + 1
             else gap.end_ + off.toNat + 1
    let acc := if !mergenable || !right_edge then acc ++ [⟨s, e⟩] else acc
    match acc.getLast? with
    | none => .crash
    | some lastB => gapFold off right_edge gaps false (acc.dropLast ++ [⟨lastB.start, e⟩])

/-- The per-byte loop of `genarate_sack`: mask the first byte below the
cumulative offset, look the byte up in the ack-track table, fold its gaps,
record whether its bit 7 was set, advance the offset by 8 and stop once the
offset reaches `largest_tsn` serially. -/
def sackLoop (cumm largest : Nat) :
    List Nat → Nat → Int → Bool → List SctpGapAckBlock →
    Outcome (List SctpGapAckBlock)
  | [], _, _, _, acc => .ok acc
  | item :: rest, i, off, mergenable, acc =>
    let byte := if i = 0 ∧ off < 0 then item &&& ((255 <<< (0 - off).toNat) % 256)
                else item
    let track := SctpAckTrack.get byte
    match gapFold off track.right_edge track.gaps mergenable acc with
    | .crash => .crash
    | .fail e => .fail e
    | .ok (mergenable, acc) =>
      let mergenable := if track.left_edge then true else mergenable
      let off := off + 8
      if serialGe32 ((cumm + i16ToU32 off) % 4294967296) largest then .ok acc
      else sackLoop cumm largest rest (i + 1) off mergenable acc

/-- `SctpMappingArray::genarate_sack(a_rwnd)` (the source's spelling).  When
`largest_tsn` is serially beyond `cummulative_tsn`, walks the bitmap bytes
deriving gap-ack blocks relative to `cummulative_tsn`; the initial offset is
minus the number of already-cumulatively-acked bits of the first byte, and
the source asserts it is greater than −8 (`crash` otherwise).  The source
wraps the resulting record in `SctpChunk::Sack`; the embedding returns the
`SctpSackChunk` record itself. -/
def SctpMappingArray.genarate_sack (m : SctpMappingArray) (a_rwnd : Nat) :
    Outcome SctpSackChunk :=
  let blocks : Outcome (List SctpGapAckBlock) :=
    if serialLt32 m.cummulative_tsn m.largest_tsn then
      if serialGe32 m.cummulative_tsn m.base_tsn then
        let offset : Int :=
          if m.cummulative_tsn ≥ m.base_tsn then
            0 - toI16 (m.cummulative_tsn - m.base_tsn + 1)
          else
            0 - toI16 (4294967295 - m.cummulative_tsn + 1 + m.base_tsn + 1)
        if offset > -8 then sackLoop m.cummulative_tsn m.largest_tsn m.storage 0 offset false []
        else .crash
      else sackLoop m.cummulative_tsn m.largest_tsn m.storage 0 0 false []
    else .ok []
  match blocks with
  | .crash => .crash
  | .fail e => .fail e
  | .ok gap_ack_blocks =>
    .ok { cum_ack := m.cummulative_tsn
          a_rwnd := a_rwnd
          num_gap_ack := gap_ack_blocks.length % 65536
          num_dup_ack := 0
          gap_acks := gap_ack_blocks
          dup_acks := [] }

/-! ## Claim C2, C3, C7: mapping-array behaviour at concrete failing inputs -/

set_option maxRecDepth 10000 in
/-- C2: after `initialize(0)` and successful updates of TSNs 7 and 24 (a
reachable state), `genarate_sack` emits the single gap-ack block (8, 25)
relative to `cum_ack = 0xffffffff`, although the bitmap byte for TSNs 8..15
is 0 — the block wrongly reports the unreceived TSNs 8..23 as received, so
the gap blocks do not describe exactly the set of received TSNs (the exact
description would be the two blocks (8, 8) and (25, 25)).  The `mergenable`
flag is not cleared when a gap-free byte is scanned, so blocks separated by
fully-zero bytes are merged. -/
theorem claim_C2_sack_blocks_not_exact :
    ((SctpMappingArray.initialized 0).updateAllOk [7, 24]).map
        (fun m => (m.genarate_sack 0, m.storage.getD 1 0, m.cummulative_tsn))
      = some (.ok { cum_ack := 4294967295, a_rwnd := 0, num_gap_ack := 1,
                    num_dup_ack := 0, gap_acks := [⟨8, 25⟩], dup_acks := [] },
              0, 4294967295) := by decide

set_option maxRecDepth 10000 in
/-- C3: after `initialize(0)` and successful updates of TSNs 1..15 then 0,
the final update shifts out two fully-acked `0xff` bytes but advances
`base_tsn` by only 8 (the claim requires 8 × shift = 16), leaving
`base_tsn = 8`, `cummulative_tsn = 15`, and the storage byte at offset 0
equal to 0 — so the invariant "every bit at offset below
`cumulative_tsn − base_tsn + 1` is 1" is violated (offset 0 would have to
be set since `15 − 8 + 1 = 8 > 0`). -/
theorem claim_C3_base_shift_bug :
    ((SctpMappingArray.initialized 0).updateAllOk
        [1, 2, 3, 4, 5, 6, 7, 8, 9, 10, 11, 12, 13, 14, 15, 0]).map
        (fun m => (m.base_tsn, m.cummulative_tsn, m.largest_tsn, m.storage.getD 0 0))
      = some (8, 15, 15, 0) := by decide

set_option maxRecDepth 10000 in
/-- C7: calling `update(2048)` on the state built by `initialize(0)`
panics (storage index out of bounds: offset byte 256 of a 256-byte bitmap)
even though the claim's precondition holds — 2048 is serially neither below
`base_tsn` nor below `cummulative_tsn` — because the source only calls
`Vec::reserve`, which grows capacity but not length, before indexing. -/
theorem claim_C7_update_out_of_bounds :
    SctpMappingArray.update (.initialized 0) 2048 = .crash ∧
    serialLt32 2048 (SctpMappingArray.initialized 0).base_tsn = false ∧
    serialLt32 2048 (SctpMappingArray.initialized 0).cummulative_tsn = false := by
  refine ⟨by decide, by decide, by decide⟩

theorem scanLoop_moved_ge (l : List Nat) (c k : Nat) : k ≤ (scanLoop c k l).2 := by
  induction l generalizing c k with
  | nil => simp [scanLoop]
  | cons b rest ih =>
    by_cases hb : b = 255
    · simp only [scanLoop, hb, if_pos]
      exact le_trans (Nat.le_succ k) (ih _ _)
    · simp [scanLoop, hb]

theorem scanLoop_drop_head (l : List Nat) (c k : Nat) :
    ((l.drop ((scanLoop c k l).2 - k)).head? ≠ some 255) := by
  induction l generalizing c k with
  | nil => simp
  | cons b rest ih =>
    by_cases hb : b = 255
    · have h1 : scanLoop c k (b :: rest) = scanLoop ((c + 8) % 4294967296) (k + 1) rest := by
        simp [scanLoop, hb]
      have hge := scanLoop_moved_ge rest ((c + 8) % 4294967296) (k + 1)
      have h2 : (scanLoop ((c + 8) % 4294967296) (k + 1) rest).2 - k
          = ((scanLoop ((c + 8) % 4294967296) (k + 1) rest).2 - (k + 1)) + 1 := by omega
      rw [h1, h2, List.drop_succ_cons]
      exact ih _ _
    · have h1 : scanLoop c k (b :: rest) = ((c + lowOnes b) % 4294967296, k) := by
        simp [scanLoop, hb]
      rw [h1]
      simp [hb]

theorem scanLoop_moved_le (l : List Nat) (c k : Nat) : (scanLoop c k l).2 ≤ k + l.length := by
  induction l generalizing c k with
  | nil => simp [scanLoop]
  | cons b rest ih =>
    by_cases hb : b = 255
    · simp only [scanLoop, hb, if_pos, List.length_cons]
      have := ih ((c + 8) % 4294967296) (k + 1)
      omega
    · simp [scanLoop, hb]

theorem scanLoop_moved_pos_head (l : List Nat) (c : Nat)
    (h : 0 < (scanLoop c 0 l).2) : l.head? = some 255 := by
  cases l with
  | nil => simp [scanLoop] at h
  | cons b rest =>
    by_cases hb : b = 255
    · simp [hb]
    · simp [scanLoop, hb] at h

theorem zero_rotate_head (l : List Nat) (mv : Nat) (hmv : 0 < mv) (hle : mv ≤ l.length)
    (hdrop : (l.drop mv).head? ≠ some 255) :
    ((List.replicate mv 0 ++ l.drop mv).rotate mv).head? ≠ some 255 := by
  have hlenL : (List.replicate mv 0 ++ l.drop mv).length = l.length := by
    simp; omega
  rcases Nat.lt_or_ge mv l.length with hlt | hge
  · rw [List.rotate_eq_drop_append_take (by omega)]
    have hd : (List.replicate mv 0 ++ l.drop mv).drop mv = l.drop mv := by
      have := List.drop_left (List.replicate mv 0) (l.drop mv)
      simp only [List.length_replicate] at this
      exact this
    rw [hd]
    have hne : l.drop mv ≠ [] := by
      intro hnil
      have := congrArg List.length hnil
      simp at this
      omega
    cases hld : l.drop mv with
    | nil => exact absurd hld hne
    | cons a t =>
      rw [hld] at hdrop
      simpa using hdrop
  · have hmveq : mv = l.length := le_antisymm hle hge
    have : (List.replicate mv 0 ++ l.drop mv).rotate mv = List.replicate mv 0 ++ l.drop mv := by
      have h0 : mv % (List.replicate mv 0 ++ l.drop mv).length = 0 := by
        rw [hlenL, ← hmveq]
        simp
      rw [← List.rotate_mod, h0, List.rotate_zero]
    rw [this, List.drop_eq_nil_of_le (by omega)]
    cases mv with
    | zero => omega
    | succ k => simp [List.replicate_succ]

theorem SctpMappingArray.updBody_storage_head (m : SctpMappingArray) (tsn : Nat) :
    (m.updBody tsn).1.storage.head? ≠ some 255 := by
  simp only [SctpMappingArray.updBody]
  set s1 := setTsnBit m.storage (m.gapOf tsn) with hs1
  set st := (if m.base_tsn = 0 then 4294967295 else m.base_tsn - 1) with hst
  have hlen1 : s1.length = m.storage.length := by
    simp [hs1, setTsnBit]
  have hdrop := scanLoop_drop_head s1 st 0
  simp only [Nat.sub_zero] at hdrop
  have hle := scanLoop_moved_le s1 st 0
  simp only [Nat.zero_add] at hle
  have hkey : (if (scanLoop st 0 s1).2 > 0 then
      (List.replicate (scanLoop st 0 s1).2 0 ++ s1.drop (scanLoop st 0 s1).2).rotate
        (scanLoop st 0 s1).2
    else s1).head? ≠ some 255 := by
    by_cases hmv : (scanLoop st 0 s1).2 > 0
    · rw [if_pos hmv]
      exact zero_rotate_head s1 _ hmv (by omega) hdrop
    · rw [if_neg hmv]
      have h0 : (scanLoop st 0 s1).2 = 0 := by omega
      rw [h0] at hdrop
      simpa using hdrop
  split <;> simpa using hkey

theorem serialLt32_irrefl (a : Nat) : serialLt32 a a = false := by
  simp only [serialLt32, decide_eq_false_iff_not]
  omega

theorem SctpMappingArray.updBody_fst (m : SctpMappingArray) (tsn : Nat) :
    (m.updBody tsn).1 =
      { storage :=
          if (scanLoop (if m.base_tsn = 0 then 4294967295 else m.base_tsn - 1) 0
                (setTsnBit m.storage (m.gapOf tsn))).2 > 0 then
            (List.replicate
                (scanLoop (if m.base_tsn = 0 then 4294967295 else m.base_tsn - 1) 0
                  (setTsnBit m.storage (m.gapOf tsn))).2 0 ++
              (setTsnBit m.storage (m.gapOf tsn)).drop
                (scanLoop (if m.base_tsn = 0 then 4294967295 else m.base_tsn - 1) 0
                  (setTsnBit m.storage (m.gapOf tsn))).2).rotate
              (scanLoop (if m.base_tsn = 0 then 4294967295 else m.base_tsn - 1) 0
                (setTsnBit m.storage (m.gapOf tsn))).2
          else setTsnBit m.storage (m.gapOf tsn)
        base_tsn :=
          if (scanLoop (if m.base_tsn = 0 then 4294967295 else m.base_tsn - 1) 0
                (setTsnBit m.storage (m.gapOf tsn))).2 > 0 then
            (m.base_tsn + 8) % 4294967296
          else m.base_tsn
        largest_tsn := if serialLt32 m.largest_tsn tsn then tsn else m.largest_tsn
        cummulative_tsn :=
          if serialLt32 m.cummulative_tsn
              (scanLoop (if m.base_tsn = 0 then 4294967295 else m.base_tsn - 1) 0
                (setTsnBit m.storage (m.gapOf tsn))).1 then
            (scanLoop (if m.base_tsn = 0 then 4294967295 else m.base_tsn - 1) 0
              (setTsnBit m.storage (m.gapOf tsn))).1
          else m.cummulative_tsn } := by
  simp only [SctpMappingArray.updBody]
  set p := scanLoop (if m.base_tsn = 0 then 4294967295 else m.base_tsn - 1) 0
    (setTsnBit m.storage (m.gapOf tsn)) with hp
  rcases Bool.eq_false_or_eq_true (serialLt32 m.cummulative_tsn p.1) with hcc | hcc <;>
    simp [hcc]

theorem setTsnBit_length (l : List Nat) (gap : Nat) :
    (setTsnBit l gap).length = l.length := by
  simp [setTsnBit]

theorem set_or_idem (l : List Nat) (i mask : Nat) :
    ((l.set i (l.getD i 0 ||| mask)).set i
      ((l.set i (l.getD i 0 ||| mask)).getD i 0 ||| mask)) =
      l.set i (l.getD i 0 ||| mask) := by
  induction l generalizing i with
  | nil => simp
  | cons a t ih =>
    cases i with
    | zero =>
      simp [List.getD, Nat.or_assoc, Nat.or_self]
    | succ j =>
      simp only [List.set_cons_succ, List.getD_cons_succ]
      rw [ih j]

theorem setTsnBit_idem (l : List Nat) (gap : Nat) :
    setTsnBit (setTsnBit l gap) gap = setTsnBit l gap := by
  unfold setTsnBit
  exact set_or_idem l (gap >>> 3) (1 <<< (gap &&& 7))

theorem set_succ_head (l : List Nat) (j : Nat) (v : Nat) :
    (l.set (j + 1) v).head? = l.head? := by
  cases l <;> simp

theorem serialLt_base_bump (base tsn gap : Nat) (hbase : base < 4294967296)
    (_htsn : tsn < 4294967296)
    (hgap : gap = if tsn ≥ base then tsn - base else 4294967295 - base + 1 + tsn)
    (hg8 : gap < 8) :
    serialLt32 tsn ((base + 8) % 4294967296) = true := by
  simp only [serialLt32, decide_eq_true_eq]
  split at hgap <;> omega

/-- States of the mapping array reachable by `initialize` (with a `u32`
initial TSN) followed by any sequence of successful `update` calls (with
`u32` TSN arguments). -/
inductive SctpMappingArray.Reachable : SctpMappingArray → Prop
  | initial (init_tsn : Nat) (h32 : init_tsn < 4294967296) :
      Reachable (SctpMappingArray.initialized init_tsn)
  | step (m : SctpMappingArray) (tsn : Nat) (m' : SctpMappingArray) (r : Option Nat)
      (hm : Reachable m) (htsn : tsn < 4294967296) (h : m.update tsn = .ok (m', r)) :
      Reachable m'

theorem SctpMappingArray.updBody_base_lt (m : SctpMappingArray) (tsn : Nat)
    (hbase : m.base_tsn < 4294967296) :
    (m.updBody tsn).1.base_tsn < 4294967296 := by
  simp only [SctpMappingArray.updBody]
  set p := scanLoop (if m.base_tsn = 0 then 4294967295 else m.base_tsn - 1) 0
    (setTsnBit m.storage (m.gapOf tsn)) with hp
  have hkey : (if p.2 > 0 then (m.base_tsn + 8) % 4294967296 else m.base_tsn) < 4294967296 := by
    split
    · omega
    · exact hbase
  rcases Bool.eq_false_or_eq_true (serialLt32 m.cummulative_tsn p.1) with hcc | hcc <;>
    simpa [hcc] using hkey

theorem SctpMappingArray.update_ok_inv (m : SctpMappingArray) (tsn : Nat)
    (m1 : SctpMappingArray) (r : Option Nat) (hbase : m.base_tsn < 4294967296)
    (h : m.update tsn = .ok (m1, r)) :
    m1.storage.head? ≠ some 255 ∧ m1.base_tsn < 4294967296 := by
  unfold SctpMappingArray.update at h
  split at h
  · exact Outcome.noConfusion h
  split at h
  · exact Outcome.noConfusion h
  split at h
  · injection h with h'
    have hm1 : m1 = (m.updBody tsn).1 := by rw [h']
    refine ⟨?_, ?_⟩
    · rw [hm1]
      exact m.updBody_storage_head tsn
    · rw [hm1]
      exact m.updBody_base_lt tsn hbase
  · exact Outcome.noConfusion h

theorem SctpMappingArray.reachable_inv (m : SctpMappingArray) (h : m.Reachable) :
    m.storage.head? ≠ some 255 ∧ m.base_tsn < 4294967296 := by
  induction h with
  | initial i h32 =>
    refine ⟨?_, ?_⟩
    · have hst : (SctpMappingArray.initialized i).storage.head? = some 0 := rfl
      rw [hst]
      intro hcontra
      exact absurd (Option.some.inj hcontra) (by omega)
    · have hb : (SctpMappingArray.initialized i).base_tsn = i := rfl
      rw [hb]
      exact h32
  | step mp tsn m' r hm htsn hupd ih =>
    exact SctpMappingArray.update_ok_inv mp tsn m' r ih.2 hupd

/-- C9: on every reachable mapping-array state, calling `update` again with
the same `u32` TSN after a first call that returned `Ok` either fails with
`InvalidValue` or returns `Ok` leaving `cummulative_tsn` and `largest_tsn`
exactly as they were after the first call.  (A first call that returned
`InvalidValue` does not change the state at all, so the repeated call
behaves identically; both cases leave the two cursors unchanged.) -/
theorem claim_C9_update_idempotent (m : SctpMappingArray) (tsn : Nat)
    (m1 : SctpMappingArray) (r : Option Nat)
    (hreach : m.Reachable) (htsn : tsn < 4294967296)
    (h1 : m.update tsn = .ok (m1, r)) :
    m1.update tsn = .fail .invalidValue ∨
      ∃ m2 r2, m1.update tsn = .ok (m2, r2) ∧
        m2.cummulative_tsn = m1.cummulative_tsn ∧
        m2.largest_tsn = m1.largest_tsn := by
  obtain ⟨hhead, hbase⟩ := SctpMappingArray.reachable_inv m hreach
  unfold SctpMappingArray.update at h1
  split at h1
  · exact Outcome.noConfusion h1
  rename_i hc1
  split at h1
  · exact Outcome.noConfusion h1
  rename_i hc2
  split at h1
  case isFalse => exact Outcome.noConfusion h1
  rename_i hlt
  injection h1 with h1'
  have hm1 : m1 = (m.updBody tsn).1 := by rw [h1']
  rw [SctpMappingArray.updBody_fst] at hm1
  have hc1' : serialLt32 tsn m.base_tsn = false := by
    revert hc1
    cases serialLt32 tsn m.base_tsn <;> simp
  set s1 := setTsnBit m.storage (m.gapOf tsn) with hs1
  set st := (if m.base_tsn = 0 then 4294967295 else m.base_tsn - 1) with hst
  set p := scanLoop st 0 s1 with hp
  by_cases hmv : p.2 > 0
  · -- the first call shifted at least one byte out: the repeated call is
    -- rejected because tsn now lies serially below the advanced base_tsn
    left
    have hs1head : s1.head? = some 255 := scanLoop_moved_pos_head s1 st hmv
    have hidx : m.gapOf tsn >>> 3 = 0 := by
      by_contra hne
      obtain ⟨j, hj⟩ : ∃ j, m.gapOf tsn >>> 3 = j + 1 :=
        ⟨m.gapOf tsn >>> 3 - 1, by omega⟩
      have hsame : s1.head? = m.storage.head? := by
        rw [hs1]
        unfold setTsnBit
        rw [hj]
        exact set_succ_head _ _ _
      rw [hsame] at hs1head
      exact hhead hs1head
    have hgap8 : m.gapOf tsn < 8 := by
      have hdiv := Nat.shiftRight_eq_div_pow (m.gapOf tsn) 3
      omega
    have hb1 : m1.base_tsn = (m.base_tsn + 8) % 4294967296 := by
      rw [hm1]
      simp [hmv]
    have hser : serialLt32 tsn m1.base_tsn = true := by
      rw [hb1]
      exact serialLt_base_bump m.base_tsn tsn (m.gapOf tsn) hbase htsn rfl hgap8
    unfold SctpMappingArray.update
    rw [hser]
    simp
  · -- no byte was shifted: the repeated call sets the same (already set)
    -- bit and recomputes the same scan, leaving both cursors unchanged
    have hm1f : m1.storage = s1 ∧ m1.base_tsn = m.base_tsn ∧
        m1.largest_tsn = (if serialLt32 m.largest_tsn tsn then tsn else m.largest_tsn) ∧
        m1.cummulative_tsn =
          (if serialLt32 m.cummulative_tsn p.1 then p.1 else m.cummulative_tsn) := by
      rw [hm1]
      simp [hmv]
    obtain ⟨hst1, hbase1, hlar1, hcum1⟩ := hm1f
    by_cases hb2 : serialLt32 tsn m1.cummulative_tsn = true
    · left
      unfold SctpMappingArray.update
      rw [hbase1, hc1', hb2]
      simp
    · right
      have hb2' : serialLt32 tsn m1.cummulative_tsn = false := by
        revert hb2
        cases serialLt32 tsn m1.cummulative_tsn <;> simp
      have hgapeq : m1.gapOf tsn = m.gapOf tsn := by
        unfold SctpMappingArray.gapOf
        rw [hbase1]
      have hlen1 : m1.storage.length = m.storage.length := by
        rw [hst1, hs1]
        exact setTsnBit_length _ _
      have hbounds : m1.gapOf tsn >>> 3 < m1.storage.length := by
        rw [hgapeq, hlen1]
        exact hlt
      have hupd2 : m1.update tsn = .ok (m1.updBody tsn) := by
        unfold SctpMappingArray.update
        rw [hbase1, hc1', hb2']
        simp [hbounds]
      have hsetidem : setTsnBit m1.storage (m1.gapOf tsn) = s1 := by
        rw [hgapeq, hst1, hs1]
        exact setTsnBit_idem m.storage (m.gapOf tsn)
      have hstq : (if m1.base_tsn = 0 then 4294967295 else m1.base_tsn - 1) = st := by
        rw [hbase1]
      refine ⟨(m1.updBody tsn).1, (m1.updBody tsn).2, by rw [hupd2], ?_, ?_⟩
      · rw [SctpMappingArray.updBody_fst]
        simp only [hsetidem, hstq, ← hp]
        show (if serialLt32 m1.cummulative_tsn p.1 = true then p.1
              else m1.cummulative_tsn) = m1.cummulative_tsn
        rcases Bool.eq_false_or_eq_true (serialLt32 m.cummulative_tsn p.1) with hcc | hcc
        · have hcmeq : m1.cummulative_tsn = p.1 := by
            rw [hcum1, hcc]
            simp
          rw [hcmeq, serialLt32_irrefl]
          simp
        · have hcmeq : m1.cummulative_tsn = m.cummulative_tsn := by
            rw [hcum1, hcc]
            simp
          rw [hcmeq, hcc]
          simp
      · rw [SctpMappingArray.updBody_fst]
        simp only [hsetidem, hstq, ← hp]
        show (if serialLt32 m1.largest_tsn tsn = true then tsn
              else m1.largest_tsn) = m1.largest_tsn
        rcases Bool.eq_false_or_eq_true (serialLt32 m.largest_tsn tsn) with hll | hll
        · have hlmeq : m1.largest_tsn = tsn := by
            rw [hlar1, hll]
            simp
          rw [hlmeq, serialLt32_irrefl]
          simp
        · have hlmeq : m1.largest_tsn = m.largest_tsn := by
            rw [hlar1, hll]
            simp
          rw [hlmeq, hll]
          simp

/-- The state after `initialize(0)` followed by `update(5)` — used as the
concrete instance for the C9 witness. -/
def c9FirstCallState : SctpMappingArray :=
  { storage := (List.replicate 256 0).set 0 32
    base_tsn := 0
    largest_tsn := 5
    cummulative_tsn := 4294967295 }

set_option maxRecDepth 10000 in
/-- Witness for C9: the reachable state `initialize(0)`, TSN 5.  The first
`update(5)` returns `Ok`; the theorem then settles the repeated call. -/
theorem claim_C9_update_idempotent_witness :
    c9FirstCallState.update 5 = .fail .invalidValue ∨
      ∃ m2 r2, c9FirstCallState.update 5 = .ok (m2, r2) ∧
        m2.cummulative_tsn = c9FirstCallState.cummulative_tsn ∧
        m2.largest_tsn = c9FirstCallState.largest_tsn :=
  claim_C9_update_idempotent (SctpMappingArray.initialized 0) 5 c9FirstCallState none
    (SctpMappingArray.Reachable.initial 0 (by decide)) (by decide) (by decide)

/-! ## Inbound stream engine (`src/sctp_stream.rs`) -/

/-- A DATA chunk (`SctpDataChunk` in `src/sctp_pkt.rs`). -/
structure SctpDataChunk where
  u_bit : Bool
  b_bit : Bool
  e_bit : Bool
  tsn : Nat
  stream_id : Nat
  stream_seq : Nat
  proto_id : Nat
  data : Bytes
deriving DecidableEq, Repr

/-- Rust `Option<SerialNumber<u16>>` strict greater-than: `None` is below
every `Some`, `Some` values compare by the serial order.  Modelled from the
spec's serial-number semantics together with Rust's `Option` ordering. -/
def optSerialGt16 : Option Nat → Option Nat → Bool
  | some a, some b => serialLt16 b a
  | some _, none => true
  | none, _ => false

/-- A (partial) reassembly message (`SctpDataMessage`). -/
structure SctpDataMessage where
  stream_id : Nat
  stream_seq : Option Nat
  complete : Bool
  start_tsn : Option Nat
  end_tsn : Option Nat
  smallest_tsn : Nat
  largest_tsn : Nat
  max_tsn : Option Nat
  len : Nat
  chunks : List SctpDataChunk
deriving DecidableEq, Repr

/-- `SctpDataMessage::new(chunk)` (the source returns `Ok` always). -/
def SctpDataMessage.new (chunk : SctpDataChunk) : SctpDataMessage :=
  { stream_id := chunk.stream_id
    stream_seq := if !chunk.u_bit then some chunk.stream_seq else none
    start_tsn := if chunk.b_bit then some chunk.tsn else none
    end_tsn := if chunk.e_bit then some chunk.tsn else none
    smallest_tsn := chunk.tsn
    largest_tsn := chunk.tsn
    max_tsn := none
    complete := chunk.b_bit && chunk.e_bit
    len := chunk.data.length
    chunks := [chunk] }

/-- Tail of `SctpDataMessage::is_include` after the `start_tsn` and
`end_tsn` checks: the `smallest_tsn`/`largest_tsn` duplicate-edge checks
and the `max_tsn` bound. -/
def SctpDataMessage.is_include_after_end (m : SctpDataMessage) (chunk : SctpDataChunk) :
    Outcome Bool :=
  if chunk.b_bit && serialLe32 m.smallest_tsn chunk.tsn then
    if !chunk.u_bit then .fail .protocolViolation else .ok false
  else if chunk.e_bit && serialGe32 m.largest_tsn chunk.tsn then
    if !chunk.u_bit then .fail .protocolViolation else .ok false
  else
    match m.max_tsn with
    | some v => if serialLt32 v chunk.tsn then .ok false else .ok true
    | none => .ok true

/-- Middle of `SctpDataMessage::is_include`: the `end_tsn` check. -/
def SctpDataMessage.is_include_after_start (m : SctpDataMessage) (chunk : SctpDataChunk) :
    Outcome Bool :=
  match m.end_tsn with
  | some v =>
    if chunk.e_bit && v ≠ chunk.tsn then
      if !chunk.u_bit then .fail .protocolViolation else .ok false
    else if serialLt32 v chunk.tsn then .fail .protocolViolation
    else m.is_include_after_end chunk
  | none => m.is_include_after_end chunk

/-- `SctpDataMessage::is_include(chunk)`: whether this waiting message is
the one the fragment belongs to; `ProtocolViolation` on inconsistent
duplicate edges of a non-unordered message. -/
def SctpDataMessage.is_include (m : SctpDataMessage) (chunk : SctpDataChunk) :
    Outcome Bool :=
  if (!chunk.u_bit && m.stream_seq ≠ some chunk.stream_seq) ||
     (chunk.u_bit && m.stream_seq ≠ none) then .ok false
  else
    match m.start_tsn with
    | some v =>
      if chunk.b_bit && v ≠ chunk.tsn then
        if !chunk.u_bit then .fail .protocolViolation else .ok false
      else if serialLt32 chunk.tsn v then .fail .protocolViolation
      else m.is_include_after_start chunk
    | none => m.is_include_after_start chunk

/-- `SctpDataMessage::is_splittable(chunk)`: an unordered edge fragment
whose TSN lies strictly inside this unordered message's TSN range can split
it in two. -/
def SctpDataMessage.is_splittable (m : SctpDataMessage) (chunk : SctpDataChunk) :
    Outcome Bool :=
  if !chunk.u_bit || m.stream_seq ≠ none then .ok false
  else if (!chunk.b_bit && !chunk.e_bit) || (chunk.b_bit && chunk.e_bit) then .ok false
  else if serialLt32 m.smallest_tsn chunk.tsn && serialLt32 chunk.tsn m.largest_tsn then
    if chunk.b_bit then
      match m.start_tsn with
      | some v =>
        if serialGe32 ((v + 1) % 4294967296) chunk.tsn then .fail .protocolViolation
        else .ok true
      | none => .ok true
    else if chunk.e_bit then
      match m.end_tsn with
      | some v =>
        if serialLe32 v ((chunk.tsn + 1) % 4294967296) then .fail .protocolViolation
        else .ok true
      | none => .ok true
    else .ok false
  else .ok false

/-- The `at`-search loop of `SctpDataMessage::split`: index of the first
chunk whose TSN is not serially below the fragment's;
`ProtocolViolation` on an equal TSN; the list length when all are below. -/
def splitFindAt (tsn : Nat) : List SctpDataChunk → Nat → Outcome Nat
  | [], i => .ok i
  | c :: rest, i =>
    if serialLt32 c.tsn tsn then splitFindAt tsn rest (i + 1)
    else if c.tsn = tsn then .fail .protocolViolation
    else .ok i

/-- `SctpDataMessage::split(chunk)`: split this message at the fragment's
TSN, returning the new message and the updated receiver (in the source the
receiver is `self`, mutated in place).  The entry `assert_eq!`s, the
`assert!`s on `at`, and the `front()`/`back()` unwraps are the `crash`
cases. -/
def SctpDataMessage.split (m : SctpDataMessage) (chunk : SctpDataChunk) :
    Outcome (SctpDataMessage × SctpDataMessage) :=
  if !chunk.b_bit && !chunk.e_bit then .crash
  else if chunk.b_bit && chunk.e_bit then .crash
  else
    match splitFindAt chunk.tsn m.chunks 0 with
    | .crash => .crash
    | .fail e => .fail e
    | .ok at_ =>
      if !(at_ > 0) then .crash
      else if !(at_ < m.chunks.length) then .crash
      else
        let former := m.chunks.take at_
        let latter := m.chunks.drop at_
        if chunk.b_bit then
          match latter.head?, latter.getLast?, former.getLast? with
          | some lfront, some lback, some fback =>
            let msg : SctpDataMessage :=
              { stream_id := chunk.stream_id
                stream_seq := none
                start_tsn := none
                end_tsn := m.end_tsn
                smallest_tsn := lfront.tsn
                largest_tsn := lback.tsn
                max_tsn := none
                complete := false
                len := (latter.map (·.data.length)).sum
                chunks := latter }
            let self' : SctpDataMessage :=
              { m with chunks := former
                       largest_tsn := fback.tsn
                       end_tsn := none
                       max_tsn := some (if lfront.tsn = 0 then 4294967295 else lfront.tsn - 1)
                       len := (former.map (·.data.length)).sum }
            .ok (msg, self')
          | _, _, _ => .crash
        else
          match former.head?, former.getLast?, latter.head? with
          | some ffront, some fback, some lfront =>
            let msg : SctpDataMessage :=
              { stream_id := chunk.stream_id
                stream_seq := none
                start_tsn := m.start_tsn
                end_tsn := none
                smallest_tsn := ffront.tsn
                largest_tsn := fback.tsn
                max_tsn := some (if m.smallest_tsn = 0 then 4294967295 else m.smallest_tsn - 1)
                complete := false
                len := (former.map (·.data.length)).sum
                chunks := former }
            let self' : SctpDataMessage :=
              { m with chunks := latter
                       smallest_tsn := lfront.tsn
                       start_tsn := none
                       len := (latter.map (·.data.length)).sum }
            .ok (msg, self')
          | _, _, _ => .crash

/-- The middle-fragment placement loop of `SctpDataMessage::insert`:
`none` when a chunk with the same TSN already exists (insert returns
`false`), otherwise the chunk list with the fragment placed in serial
position (appended when every existing TSN is serially below it). -/
def insertMiddleChunk (chunk : SctpDataChunk) : List SctpDataChunk → Option (List SctpDataChunk)
  | [] => some []
  | item :: rest =>
    if serialLt32 item.tsn chunk.tsn then
      match rest with
      | [] => some [item, chunk]
      | _ :: _ =>
        match insertMiddleChunk chunk rest with
        | some l => some (item :: l)
        | none => none
    else if item.tsn = chunk.tsn then none
    else some (chunk :: item :: rest)

/-- The completeness scan at the end of `SctpDataMessage::insert`: walks
the chunks checking `chunks[i].tsn = start_tsn + i` (wrapping), reaching
the last index means the message is complete. -/
def chunksConsecutive (start : Nat) : Nat → Nat → List SctpDataChunk → Bool
  | _, _, [] => false
  | i, len, c :: rest =>
    if c.tsn ≠ (start + i) % 4294967296 then false
    else if i = len - 1 then true
    else chunksConsecutive start (i + 1) len rest

/-- The trailing part of `SctpDataMessage::insert`: once both edges are
known, assert the edge/corner invariants (`crash` when violated) and mark
the message complete when the chunk TSNs are consecutive from
`start_tsn`. -/
def SctpDataMessage.completionCheck (m : SctpDataMessage) : Outcome SctpDataMessage :=
  if m.start_tsn ≠ none ∧ m.end_tsn ≠ none then
    if m.start_tsn ≠ some m.smallest_tsn then .crash
    else if m.end_tsn ≠ some m.largest_tsn then .crash
    else
      match m.start_tsn with
      | some v =>
        if chunksConsecutive v 0 m.chunks.length m.chunks then .ok { m with complete := true }
        else .ok m
      | none => .ok m
  else .ok m

/-- `SctpDataMessage::insert(chunk)`: merge a fragment into this message
(begin fragments go to the front, end fragments to the back, middle
fragments into serial position); returns the source's `bool` (false when
the fragment is rejected) together with the updated message. -/
def SctpDataMessage.insert (m : SctpDataMessage) (chunk : SctpDataChunk) :
    Outcome (Bool × SctpDataMessage) :=
  if m.complete || (chunk.b_bit && chunk.e_bit) then .ok (false, m)
  else if !chunk.u_bit && m.stream_seq ≠ some chunk.stream_seq then .ok (false, m)
  else if chunk.u_bit && m.stream_seq ≠ none then .ok (false, m)
  else
    let afterIns : Option SctpDataMessage :=
      if chunk.b_bit then
        if m.start_tsn ≠ none then none
        else if serialLe32 m.smallest_tsn chunk.tsn then none
        else some { m with start_tsn := some chunk.tsn
                           smallest_tsn := chunk.tsn
                           len := m.len + chunk.data.length
                           chunks := chunk :: m.chunks }
      else if chunk.e_bit then
        if m.end_tsn ≠ none then none
        else if serialGe32 m.largest_tsn chunk.tsn then none
        else some { m with end_tsn := some chunk.tsn
                           largest_tsn := chunk.tsn
                           len := m.len + chunk.data.length
                           chunks := m.chunks ++ [chunk] }
      else
        match m.chunks with
        | [] => some m
        | _ :: _ =>
          match insertMiddleChunk chunk m.chunks with
          | none => none
          | some newChunks =>
            some { m with
                   smallest_tsn := if serialLt32 chunk.tsn m.smallest_tsn then chunk.tsn
                                   else m.smallest_tsn
                   largest_tsn := if serialLt32 m.largest_tsn chunk.tsn then chunk.tsn
                                  else m.largest_tsn
                   len := m.len + chunk.data.length
                   chunks := newChunks }
    match afterIns with
    | none => .ok (false, m)
    | some m' =>
      match m'.completionCheck with
      | .crash => .crash
      | .fail e => .fail e
      | .ok m'' => .ok (true, m'')

/-- One inbound stream (`SctpStreamIn`). -/
structure SctpStreamIn where
  stream_id : Nat
  next_seq : Nat
  waiting_ordered_queue : List SctpDataMessage
  waiting_unordered_queue : List SctpDataMessage
  readable_ordered_queue : List SctpDataMessage
  readable_unordered_queue : List SctpDataMessage
deriving DecidableEq, Repr

/-- `SctpStreamIn::new(strmid)`. -/
def SctpStreamIn.new (strmid : Nat) : SctpStreamIn :=
  { stream_id := strmid
    next_seq := 0
    waiting_ordered_queue := []
    waiting_unordered_queue := []
    readable_ordered_queue := []
    readable_unordered_queue := [] }

/-- The placement loop of `insert_into_waiting` for the ordered queue
(sorted by stream sequence; equal stream sequences are a protocol
violation, signalled by `none`). -/
def insertOrderedLoop (msg : SctpDataMessage) :
    List SctpDataMessage → Option (List SctpDataMessage)
  | [] => some [msg]
  | item :: rest =>
    if optSerialGt16 msg.stream_seq item.stream_seq then
      (insertOrderedLoop msg rest).map (item :: ·)
    else if msg.stream_seq = item.stream_seq then none
    else some (msg :: item :: rest)

/-- The placement loop of `insert_into_waiting` for the unordered queue
(sorted by smallest TSN against the existing largest TSNs; an equal edge is
a protocol violation, signalled by `none`). -/
def insertUnorderedLoop (msg : SctpDataMessage) :
    List SctpDataMessage → Option (List SctpDataMessage)
  | [] => some [msg]
  | item :: rest =>
    if serialLt32 item.largest_tsn msg.smallest_tsn then
      (insertUnorderedLoop msg rest).map (item :: ·)
    else if msg.smallest_tsn = item.largest_tsn then none
    else some (msg :: item :: rest)

/-- `SctpStreamIn::insert_into_waiting(msg)`: place a new message into the
ordered or unordered waiting queue at its serial position. -/
def SctpStreamIn.insert_into_waiting (s : SctpStreamIn) (msg : SctpDataMessage) :
    Outcome (SctpStreamIn × Bool) :=
  if msg.stream_seq ≠ none then
    match s.waiting_ordered_queue with
    | [] => .ok ({ s with waiting_ordered_queue := [msg] }, true)
    | _ :: _ =>
      match insertOrderedLoop msg s.waiting_ordered_queue with
      | none => .fail .protocolViolation
      | some q => .ok ({ s with waiting_ordered_queue := q }, true)
  else
    match s.waiting_unordered_queue with
    | [] => .ok ({ s with waiting_unordered_queue := [msg] }, true)
    | _ :: _ =>
      match insertUnorderedLoop msg s.waiting_unordered_queue with
      | none => .fail .protocolViolation
      | some q => .ok ({ s with waiting_unordered_queue := q }, true)

/-- Search loop of `find_msg_from_waiting`: index of the first message that
`is_include`s the chunk, propagating `is_include` errors. -/
def findIncludeIdx (chunk : SctpDataChunk) : List SctpDataMessage → Outcome (Option Nat)
  | [] => .ok none
  | item :: rest =>
    match item.is_include chunk with
    | .crash => .crash
    | .fail e => .fail e
    | .ok true => .ok (some 0)
    | .ok false =>
      match findIncludeIdx chunk rest with
      | .ok (some i) => .ok (some (i + 1))
      | other => other

/-- `SctpStreamIn::find_msg_from_waiting(chunk)`: search the ordered (for
ordered chunks) or unordered waiting queue; the embedding returns the
index of the found message instead of a mutable borrow. -/
def SctpStreamIn.find_msg_from_waiting (s : SctpStreamIn) (chunk : SctpDataChunk) :
    Outcome (Option Nat) :=
  if !chunk.u_bit then findIncludeIdx chunk s.waiting_ordered_queue
  else findIncludeIdx chunk s.waiting_unordered_queue

/-- Search loop of `find_splittable_msg_from_waiting`. -/
def findSplittableIdx (chunk : SctpDataChunk) : List SctpDataMessage → Outcome (Option Nat)
  | [] => .ok none
  | item :: rest =>
    match item.is_splittable chunk with
    | .crash => .crash
    | .fail e => .fail e
    | .ok true => .ok (some 0)
    | .ok false =>
      match findSplittableIdx chunk rest with
      | .ok (some i) => .ok (some (i + 1))
      | other => other

/-- `SctpStreamIn::find_splittable_msg_from_waiting(chunk)` (index instead
of a mutable borrow). -/
def SctpStreamIn.find_splittable_msg_from_waiting (s : SctpStreamIn) (chunk : SctpDataChunk) :
    Outcome (Option Nat) :=
  if !chunk.u_bit then .ok none
  else findSplittableIdx chunk s.waiting_unordered_queue

/-- The ordered drain loop at the end of `recv`: pop complete messages
whose stream sequence equals `next_seq`, advancing `next_seq` (wrapping at
16 bits).  Returns the remaining queue, the popped messages in pop order,
and the final `next_seq`. -/
def drainOrderedLoop (next_seq : Nat) :
    List SctpDataMessage → List SctpDataMessage × List SctpDataMessage × Nat
  | [] => ([], [], next_seq)
  | msg :: rest =>
    if msg.stream_seq = some next_seq ∧ msg.complete then
      let res := drainOrderedLoop ((next_seq + 1) % 65536) rest
      (res.1, msg :: res.2.1, res.2.2)
    else (msg :: rest, [], next_seq)

/-- The unordered drain loop at the end of `recv`: scan the queue from the
back, removing every complete message (so they are pushed to the readable
queue in reverse queue order, as the source's backwards index loop does).
Returns the remaining queue and the removed messages in push order. -/
def drainUnorderedLoop : List SctpDataMessage → List SctpDataMessage × List SctpDataMessage
  | [] => ([], [])
  | msg :: rest =>
    let res := drainUnorderedLoop rest
    if msg.complete then (res.1, res.2 ++ [msg]) else (msg :: res.1, res.2)

/-- The shared tail of `SctpStreamIn::recv`: run both drain loops, move
the drained messages to the readable queues and add their lengths to the
running `len`. -/
def SctpStreamIn.recvDrain (s : SctpStreamIn) (len : Nat) : SctpStreamIn × Nat :=
  let resO := drainOrderedLoop s.next_seq s.waiting_ordered_queue
  let len := len + (resO.2.1.map (·.len)).sum
  let resU := drainUnorderedLoop s.waiting_unordered_queue
  let len := len + (resU.2.map (·.len)).sum
  ({ s with waiting_ordered_queue := resO.1
            readable_ordered_queue := s.readable_ordered_queue ++ resO.2.1
            next_seq := resO.2.2
            waiting_unordered_queue := resU.1
            readable_unordered_queue := s.readable_unordered_queue ++ resU.2 }, len)

/-- `SctpStreamIn::recv(chunk)`.  The entry `assert_eq!` on the stream id
is the `crash` case; the initial check rejects with `ProtocolViolation`
whenever the chunk's stream sequence is serially below `next_seq`
(regardless of `u_bit`); whole messages go straight to a readable queue or
into waiting (the latter returning without draining); fragments are merged
into, split out of, or inserted into the waiting queues; finally the drain
loops run.  Returns the updated stream and the number of bytes that became
readable. -/
def SctpStreamIn.recv (s : SctpStreamIn) (chunk : SctpDataChunk) :
    Outcome (SctpStreamIn × Nat) :=
  if s.stream_id ≠ chunk.stream_id then .crash
  else if serialLt16 chunk.stream_seq s.next_seq then .fail .protocolViolation
  else if chunk.b_bit && chunk.e_bit then
    let msg := SctpDataMessage.new chunk
    if msg.stream_seq = none || some s.next_seq == msg.stream_seq then
      let len := msg.len
      if msg.stream_seq ≠ none then
        let s := { s with readable_ordered_queue := s.readable_ordered_queue ++ [msg]
                          next_seq := (s.next_seq + 1) % 65536 }
        .ok (s.recvDrain len)
      else
        let s := { s with readable_unordered_queue := s.readable_unordered_queue ++ [msg] }
        .ok (s.recvDrain len)
    else
      match s.insert_into_waiting msg with
      | .crash => .crash
      | .fail e => .fail e
      | .ok (s, _) => .ok (s, 0)
  else
    match s.find_msg_from_waiting chunk with
    | .crash => .crash
    | .fail e => .fail e
    | .ok (some i) =>
      match (if !chunk.u_bit then s.waiting_ordered_queue.get? i
             else s.waiting_unordered_queue.get? i) with
      | none => .crash
      | some msg =>
        match msg.insert chunk with
        | .crash => .crash
        | .fail e => .fail e
        | .ok (_, msg') =>
          let s := if !chunk.u_bit then
              { s with waiting_ordered_queue := s.waiting_ordered_queue.set i msg' }
            else
              { s with waiting_unordered_queue := s.waiting_unordered_queue.set i msg' }
          .ok (s.recvDrain 0)
    | .ok none =>
      if chunk.u_bit then
        match s.find_splittable_msg_from_waiting chunk with
        | .crash => .crash
        | .fail e => .fail e
        | .ok (some i) =>
          match s.waiting_unordered_queue.get? i with
          | none => .crash
          | some msg =>
            match msg.split chunk with
            | .crash => .crash
            | .fail _ => .crash
            | .ok (msg1, selfMsg) =>
              match msg1.insert chunk with
              | .crash => .crash
              | .fail e => .fail e
              | .ok (_, msg1') =>
                let s := { s with waiting_unordered_queue :=
                    s.waiting_unordered_queue.set i selfMsg }
                match s.insert_into_waiting msg1' with
                | .crash => .crash
                | .fail e => .fail e
                | .ok (s, _) => .ok (s.recvDrain 0)
        | .ok none =>
          let msg1 := SctpDataMessage.new chunk
          match s.insert_into_waiting msg1 with
          | .crash => .crash
          | .fail e => .fail e
          | .ok (s, _) => .ok (s.recvDrain 0)
      else
        let msg := SctpDataMessage.new chunk
        match s.insert_into_waiting msg with
        | .crash => .crash
        | .fail e => .fail e
        | .ok (s, _) => .ok (s.recvDrain 0)

/-- `SctpStreamIn::read(wbuf)`: pop the front readable unordered message if
any, else the front readable ordered message, appending its chunks' data to
the buffer; `Ok(0)` when nothing is readable.  Returns the updated stream,
the buffer, and the byte count. -/
def SctpStreamIn.read (s : SctpStreamIn) (wbuf : Bytes) :
    Outcome (SctpStreamIn × Bytes × Nat) :=
  let prev_len := wbuf.length
  match s.readable_unordered_queue with
  | msg :: rest =>
    let wbuf := wbuf ++ (msg.chunks.map (·.data)).flatten
    .ok ({ s with readable_unordered_queue := rest }, wbuf, wbuf.length - prev_len)
  | [] =>
    match s.readable_ordered_queue with
    | msg :: rest =>
      let wbuf := wbuf ++ (msg.chunks.map (·.data)).flatten
      .ok ({ s with readable_ordered_queue := rest }, wbuf, wbuf.length - prev_len)
    | [] => .ok (s, wbuf, 0)

/-- `SctpStreamIn::is_readable()`. -/
def SctpStreamIn.is_readable (s : SctpStreamIn) : Bool :=
  !s.readable_unordered_queue.isEmpty || !s.readable_ordered_queue.isEmpty

/-! ## Association slices (`src/lib.rs`) -/

/-- The DATA-chunk arm of `SctpAssociation::recv` (the routing slice,
`src/lib.rs` lines 796–821): picks `stream_id` from the chunk's
`proto_id` field, updates the mapping array (propagating its error via
`?`), silently skips the chunk when the index is out of range
(`continue`), and otherwise delivers the chunk to the selected inbound
stream with `SctpStreamIn::recv` (propagating its error via `?`).  The
delayed-ack bookkeeping that follows the delivery involves wall-clock
timers and is outside this slice. -/
def SctpAssociation.recv_data_arm (mapping_array : SctpMappingArray)
    (stream_in : List SctpStreamIn) (data_chunk : SctpDataChunk) :
    Outcome (SctpMappingArray × List SctpStreamIn) :=
  let stream_id := data_chunk.proto_id
  let tsn := data_chunk.tsn
  match mapping_array.update tsn with
  | .crash => .crash
  | .fail e => .fail e
  | .ok (ma, _) =>
    match stream_in.get? stream_id with
    | none => .ok (ma, stream_in)
    | some st =>
      match st.recv data_chunk with
      | .crash => .crash
      | .fail e => .fail e
      | .ok (st', _) => .ok (ma, stream_in.set stream_id st')

/-- `SctpAssociation::read_from_stream(stream_id, wbuf)`: look the inbound
stream up by id (`InvalidValue` when absent) and delegate to
`SctpStreamIn::read`. -/
def SctpAssociation.read_from_stream (stream_in : List SctpStreamIn)
    (stream_id : Nat) (wbuf : Bytes) :
    Outcome (List SctpStreamIn × Bytes × Nat) :=
  match stream_in.get? stream_id with
  | none => .fail .invalidValue
  | some s =>
    match s.read wbuf with
    | .crash => .crash
    | .fail e => .fail e
    | .ok (s', wbuf', n) => .ok (stream_in.set stream_id s', wbuf', n)

/-! ## Claims C1 and C6: concrete failing inputs in the stream path -/

set_option maxRecDepth 4000 in
/-- C1: the DATA arm of `SctpAssociation::recv` selects the inbound stream
by the chunk's Payload Protocol Identifier (`let stream_id =
data_chunk.proto_id`), not by its Stream Identifier.  On an association
with two inbound streams, a DATA chunk with `stream_id = 1` and
`proto_id = 0` is handed to stream 0, whose entry assertion
`assert_eq!(self.stream_id, chunk.stream_id)` then panics — instead of
being delivered to stream 1 as the claim requires. -/
theorem claim_C1_data_routed_by_proto_id :
    SctpAssociation.recv_data_arm (.initialized 0)
        [SctpStreamIn.new 0, SctpStreamIn.new 1]
        ⟨false, true, true, 0, 1, 0, 0, [7]⟩ = .crash ∧
    (SctpStreamIn.new 0).stream_id ≠ (1 : Nat) := by
  refine ⟨by decide, by decide⟩

/-- C6: the initial stream-sequence check of `SctpStreamIn::recv` does not
consult `u_bit`.  After one ordered whole message with sequence 0 (which
advances `next_seq` to 1), an unordered whole message carrying
`stream_seq = 0` — a value the claim says plays no role for unordered
chunks — is rejected with `ProtocolViolation` by that initial check. -/
theorem claim_C6_unordered_rejected_by_seq_check :
    (SctpStreamIn.new 0).recv ⟨false, true, true, 100, 0, 0, 0, [1]⟩ =
      .ok ({ stream_id := 0
             next_seq := 1
             waiting_ordered_queue := []
             waiting_unordered_queue := []
             readable_ordered_queue :=
               [{ stream_id := 0, stream_seq := some 0, complete := true
                  start_tsn := some 100, end_tsn := some 100
                  smallest_tsn := 100, largest_tsn := 100, max_tsn := none
                  len := 1, chunks := [⟨false, true, true, 100, 0, 0, 0, [1]⟩] }]
             readable_unordered_queue := [] }, 1) ∧
    ({ stream_id := 0
       next_seq := 1
       waiting_ordered_queue := []
       waiting_unordered_queue := []
       readable_ordered_queue :=
         [{ stream_id := 0, stream_seq := some 0, complete := true
            start_tsn := some 100, end_tsn := some 100
            smallest_tsn := 100, largest_tsn := 100, max_tsn := none
            len := 1, chunks := [⟨false, true, true, 100, 0, 0, 0, [1]⟩] }]
       readable_unordered_queue := [] } : SctpStreamIn).recv
        ⟨true, true, true, 101, 0, 0, 0, [2]⟩ = .fail .protocolViolation := by
  refine ⟨by decide, by decide⟩

/-! ## Claim C10: read prefers unordered messages -/

/-- C10: for any inbound stream state, a single `read` call pops the oldest
(front) readable unordered message and appends its chunks' payloads to the
buffer; a readable ordered message is popped only when no unordered message
is readable; and with nothing readable, `read` returns `Ok(0)` leaving the
buffer unchanged. -/
theorem claim_C10_read_unordered_priority (s : SctpStreamIn) (wbuf : Bytes) :
    (∀ msg rest, s.readable_unordered_queue = msg :: rest →
      s.read wbuf = .ok ({ s with readable_unordered_queue := rest },
        wbuf ++ (msg.chunks.map (·.data)).flatten,
        ((msg.chunks.map (·.data)).flatten).length)) ∧
    (s.readable_unordered_queue = [] →
      ∀ msg rest, s.readable_ordered_queue = msg :: rest →
        s.read wbuf = .ok ({ s with readable_ordered_queue := rest },
          wbuf ++ (msg.chunks.map (·.data)).flatten,
          ((msg.chunks.map (·.data)).flatten).length)) ∧
    (s.readable_unordered_queue = [] → s.readable_ordered_queue = [] →
      s.read wbuf = .ok (s, wbuf, 0)) := by
  refine ⟨?_, ?_, ?_⟩
  · intro msg rest hq
    simp [SctpStreamIn.read, hq]
  · intro hu msg rest hq
    simp [SctpStreamIn.read, hu, hq]
  · intro hu ho
    simp [SctpStreamIn.read, hu, ho]

/-- A readable unordered message used by the C10 witness. -/
def c10MsgUnordered : SctpDataMessage :=
  { stream_id := 0, stream_seq := none, complete := true
    start_tsn := some 7, end_tsn := some 8, smallest_tsn := 7, largest_tsn := 8
    max_tsn := none, len := 2
    chunks := [⟨true, true, false, 7, 0, 0, 0, [10]⟩, ⟨true, false, true, 8, 0, 0, 0, [11]⟩] }

/-- A readable ordered message used by the C10 witness. -/
def c10MsgOrdered : SctpDataMessage :=
  { stream_id := 0, stream_seq := some 0, complete := true
    start_tsn := some 9, end_tsn := some 9, smallest_tsn := 9, largest_tsn := 9
    max_tsn := none, len := 1
    chunks := [⟨false, true, true, 9, 0, 0, 0, [20]⟩] }

/-- A stream with both an unordered and an ordered readable message. -/
def c10Stream : SctpStreamIn :=
  { stream_id := 0, next_seq := 1
    waiting_ordered_queue := [], waiting_unordered_queue := []
    readable_ordered_queue := [c10MsgOrdered]
    readable_unordered_queue := [c10MsgUnordered] }

/-- Witness for C10: on a stream holding both kinds of readable message,
`read` returns the unordered one's bytes. -/
theorem claim_C10_read_unordered_priority_witness :
    c10Stream.read [] = .ok ({ c10Stream with readable_unordered_queue := [] },
      [] ++ ((c10MsgUnordered.chunks.map (·.data)).flatten),
      ((c10MsgUnordered.chunks.map (·.data)).flatten).length) :=
  (claim_C10_read_unordered_priority c10Stream []).1 c10MsgUnordered [] rfl

/-! ## Per-path congestion state (`src/sctp_recovery.rs`) -/

/-- The fields of `SctpPath` that `increase_cwnd`/`congestion_control`
read and write (byte counts are `usize` in the source). -/
structure SctpPath where
  mtu : Nat
  cwnd : Nat
  ssthresh : Nat
  partial_bytes_acked : Nat
  flight : Nat
  ack : Nat
  fast_recovery : Bool
deriving DecidableEq, Repr

/-- `SctpPath::increase_cwnd`.  Slow start (`cwnd ≤ ssthresh`): grow
`cwnd` by `max(ack, mtu)` only when `flight + ack ≥ cwnd`.  Congestion
avoidance: always add `ack` to `partial_bytes_acked`; when that reaches
`cwnd`, grow `cwnd` by `mtu` and reduce `partial_bytes_acked` by the new
`cwnd`, saturating at 0 (`checked_sub(..).unwrap_or(0)`).  The `ack`
accumulator is cleared at the end of every call. -/
def SctpPath.increase_cwnd (p : SctpPath) : SctpPath :=
  if p.cwnd ≤ p.ssthresh then
    let p := if p.flight + p.ack ≥ p.cwnd then
        { p with cwnd := p.cwnd + max p.ack p.mtu }
      else p
    { p with ack := 0 }
  else
    let p := { p with partial_bytes_acked := p.partial_bytes_acked + p.ack }
    let p := if p.partial_bytes_acked ≥ p.cwnd then
        { p with cwnd := p.cwnd + p.mtu
                 partial_bytes_acked := p.partial_bytes_acked - (p.cwnd + p.mtu) }
      else p
    { p with ack := 0 }

/-- `SctpPath::congestion_control`: run `increase_cwnd` unless the path is
in fast recovery. -/
def SctpPath.congestion_control (p : SctpPath) : SctpPath :=
  if !p.fast_recovery then p.increase_cwnd else p

/-! ## Claim C8: cwnd growth on SACK -/

/-- C8 counterexample: with `cwnd = 10 > ssthresh = 5` (congestion
avoidance), `flight = 0` and `ack = 1`, we have `flight + ack < cwnd`, yet
`congestion_control` raises `partial_bytes_acked` from 0 to 1 — the
claim's final clause ("when flight + ack < cwnd neither cwnd nor
partial_bytes_acked changes") is false on the code: the `flight + ack ≥
cwnd` guard only protects the slow-start branch. -/
theorem claim_C8_counterexample :
    (SctpPath.congestion_control ⟨1000, 10, 5, 0, 0, 1, false⟩).partial_bytes_acked = 1 ∧
    (0 + 1 < 10) ∧
    (⟨1000, 10, 5, 0, 0, 1, false⟩ : SctpPath).partial_bytes_acked = 0 := by
  refine ⟨by decide, by decide, by decide⟩

/-- C8, amended: when the path is not in fast recovery,
`congestion_control` behaves as follows.  In slow start
(`cwnd ≤ ssthresh`): if `flight + ack ≥ cwnd` then `cwnd` grows by
`max(ack, mtu)`, otherwise `cwnd` is unchanged, and `partial_bytes_acked`
is untouched either way.  In congestion avoidance (`cwnd > ssthresh`):
`partial_bytes_acked` grows by `ack` unconditionally — also when
`flight + ack < cwnd` — and when the grown value reaches `cwnd`, `cwnd`
grows by `mtu` and `partial_bytes_acked` becomes
`max(partial_bytes_acked + ack − (cwnd + mtu), 0)`.  The `ack` accumulator
is cleared in every case, and `flight`, `mtu`, `ssthresh` never change. -/
theorem claim_C8_cwnd_update_amended (p : SctpPath) (hfr : p.fast_recovery = false) :
    let p' := p.congestion_control
    (p.cwnd ≤ p.ssthresh →
      p'.cwnd = (if p.flight + p.ack ≥ p.cwnd then p.cwnd + max p.ack p.mtu else p.cwnd) ∧
      p'.partial_bytes_acked = p.partial_bytes_acked) ∧
    (p.cwnd > p.ssthresh →
      p'.cwnd = (if p.partial_bytes_acked + p.ack ≥ p.cwnd then p.cwnd + p.mtu else p.cwnd) ∧
      p'.partial_bytes_acked =
        (if p.partial_bytes_acked + p.ack ≥ p.cwnd then
          p.partial_bytes_acked + p.ack - (p.cwnd + p.mtu)
        else p.partial_bytes_acked + p.ack)) ∧
    p'.ack = 0 ∧ p'.flight = p.flight ∧ p'.mtu = p.mtu ∧ p'.ssthresh = p.ssthresh := by
  intro p'
  have hp' : p' = p.increase_cwnd := by
    simp [p', SctpPath.congestion_control, hfr]
  rw [hp']
  refine ⟨?_, ?_, ?_, ?_, ?_, ?_⟩
  · intro hss
    by_cases hfa : p.cwnd ≤ p.flight + p.ack
    · simp [SctpPath.increase_cwnd, hss, hfa]
    · simp [SctpPath.increase_cwnd, hss, hfa]
  · intro hss
    have hss' : ¬ p.cwnd ≤ p.ssthresh := by omega
    by_cases hpa : p.cwnd ≤ p.partial_bytes_acked + p.ack
    · simp [SctpPath.increase_cwnd, hss', hpa]
    · simp [SctpPath.increase_cwnd, hss', hpa]
  all_goals
    by_cases hss : p.cwnd ≤ p.ssthresh <;>
      by_cases hfa : p.cwnd ≤ p.flight + p.ack <;>
      by_cases hpa : p.cwnd ≤ p.partial_bytes_acked + p.ack <;>
      simp [SctpPath.increase_cwnd, hss, hfa, hpa]

/-- Witness for C8 (amended), at a concrete congestion-avoidance path
state: `mtu = 1000`, `cwnd = 10`, `ssthresh = 5`, `pba = 0`, `flight = 0`,
`ack = 1`, not in fast recovery. -/
theorem claim_C8_cwnd_update_amended_witness :
    let p : SctpPath := ⟨1000, 10, 5, 0, 0, 1, false⟩
    let p' := p.congestion_control
    (p.cwnd ≤ p.ssthresh →
      p'.cwnd = (if p.flight + p.ack ≥ p.cwnd then p.cwnd + max p.ack p.mtu else p.cwnd) ∧
      p'.partial_bytes_acked = p.partial_bytes_acked) ∧
    (p.cwnd > p.ssthresh →
      p'.cwnd = (if p.partial_bytes_acked + p.ack ≥ p.cwnd then p.cwnd + p.mtu else p.cwnd) ∧
      p'.partial_bytes_acked =
        (if p.partial_bytes_acked + p.ack ≥ p.cwnd then
          p.partial_bytes_acked + p.ack - (p.cwnd + p.mtu)
        else p.partial_bytes_acked + p.ack)) ∧
    p'.ack = 0 ∧ p'.flight = p.flight ∧ p'.mtu = p.mtu ∧ p'.ssthresh = p.ssthresh :=
  claim_C8_cwnd_update_amended ⟨1000, 10, 5, 0, 0, 1, false⟩ rfl

/-! ## Wire codec (`src/sctp_pkt.rs`) -/

/-- Big-endian byte writers used by the codec (the `byteorder`
`write_u8`/`write_u16`/`write_u32`/`write_u64` calls); each emitted
byte is reduced modulo 256, which on in-range values is exact and
otherwise matches the truncating `as` casts at the call sites. -/
def u8B (v : Nat) : Bytes := [v % 256]

/-- Big-endian 16-bit writer. -/
def u16B (v : Nat) : Bytes := [v / 256 % 256, v % 256]

/-- Big-endian 32-bit writer. -/
def u32B (v : Nat) : Bytes :=
  [v / 16777216 % 256, v / 65536 % 256, v / 256 % 256, v % 256]

/-- Big-endian 64-bit writer. -/
def u64B (v : Nat) : Bytes :=
  [v / 72057594037927936 % 256, v / 281474976710656 % 256,
   v / 1099511627776 % 256, v / 4294967296 % 256,
   v / 16777216 % 256, v / 65536 % 256, v / 256 % 256, v % 256]

/-- The trailing padding loop shared by the chunk, parameter and
error-cause writers: append zero bytes until the length is a multiple of
four. -/
def pad4 (l : Bytes) : Bytes := l ++ List.replicate ((4 - l.length % 4) % 4) 0

/-- An IP address (`std::net::IpAddr`): four octets or eight 16-bit
groups. -/
inductive IpAddr where
  | v4 (o0 o1 o2 o3 : Nat)
  | v6 (g0 g1 g2 g3 g4 g5 g6 g7 : Nat)
deriving DecidableEq, Repr

/-- A chunk or parameter TLV parameter (`SctpParameter`); type codes and
element values are the source's `u16`/`u8` newtypes. -/
inductive SctpParameter where
  | ipv4 (o0 o1 o2 o3 : Nat)
  | ipv6 (g0 g1 g2 g3 g4 g5 g6 g7 : Nat)
  | cookie (v : Bytes)
  | cookiePreserv (v : Nat)
  | hostname (v : Bytes)
  | supportedAddrs (v : List Nat)
  | ecn
  | random (v : Bytes)
  | chunks (v : List Nat)
  | hmacAlgo (v : List Nat)
  | supportedExts (v : List Nat)
  | forwardTsn
  | unknown (param_type : Nat) (v : Bytes)
deriving DecidableEq, Repr

/-- `SctpParameter::to_bytes`: type, length, payload, zero padding to a
four-byte boundary.  `CookiePreserv` and `Hostname` fall into the
source's `_ => {}` arm and emit nothing. -/
def SctpParameter.to_bytes : SctpParameter → Bytes
  | .ipv4 o0 o1 o2 o3 => pad4 (u16B 5 ++ u16B 8 ++ [o0, o1, o2, o3])
  | .ipv6 g0 g1 g2 g3 g4 g5 g6 g7 =>
    pad4 (u16B 6 ++ u16B 20 ++ u16B g0 ++ u16B g1 ++ u16B g2 ++ u16B g3 ++
      u16B g4 ++ u16B g5 ++ u16B g6 ++ u16B g7)
  | .cookie v => pad4 (u16B 7 ++ u16B (4 + v.length) ++ v)
  | .supportedAddrs v =>
    pad4 (u16B 12 ++ u16B (4 + 2 * v.length) ++ (v.map u16B).flatten)
  | .ecn => pad4 (u16B 32768 ++ u16B 4)
  | .random v => pad4 (u16B 32770 ++ u16B (4 + v.length) ++ v)
  | .chunks v => pad4 (u16B 32771 ++ u16B (4 + 1 * v.length) ++ (v.map u8B).flatten)
  | .hmacAlgo v => pad4 (u16B 32772 ++ u16B (4 + 2 * v.length) ++ (v.map u16B).flatten)
  | .supportedExts v => pad4 (u16B 32776 ++ u16B (4 + 1 * v.length) ++ (v.map u8B).flatten)
  | .forwardTsn => pad4 (u16B 49152 ++ u16B 4)
  | .unknown t v => pad4 (u16B t ++ u16B (4 + v.length) ++ v)
  | .cookiePreserv _ => pad4 []
  | .hostname _ => pad4 []

/-- An abort/error cause (`SctpErrorCause`). -/
inductive SctpErrorCause where
  | invalidStreamId (sid : Nat)
  | missingParam (v : List Nat)
  | cookieError (v : Nat)
  | outOfResource
  | unresolvableAddr (t : Nat) (l : Nat) (v : Bytes)
  | unrecognizedChunk (t : Nat) (f : Nat) (l : Nat) (v : Bytes)
  | invalidParam
  | unrecognizedParam (t : Nat) (l : Nat) (v : Bytes)
  | noUserData (v : Nat)
  | cookieInShutdown
  | restartAssocWithNewAddr (t : Nat) (l : Nat) (v : Bytes)
  | userInitiatedAbort (v : Bytes)
  | protocolViolation (v : Bytes)
  | unknown (code : Nat) (v : Bytes)
deriving DecidableEq, Repr

/-- `SctpErrorCause::to_bytes`: only `InvalidStreamId` and
`UserInitiatedAbort` have writer arms; every other cause falls into the
source's `_ => {}` arm and emits nothing. -/
def SctpErrorCause.to_bytes : SctpErrorCause → Bytes
  | .invalidStreamId v => pad4 (u16B 1 ++ u16B 8 ++ u16B v ++ u16B 0)
  | .userInitiatedAbort v => pad4 (u16B 12 ++ u16B (4 + v.length) ++ v)
  | _ => pad4 []

/-- INIT/INIT-ACK contents (`SctpInitChunk`). -/
structure SctpInitChunk where
  init_tag : Nat
  a_rwnd : Nat
  num_out_strm : Nat
  num_in_strm : Nat
  init_tsn : Nat
  params : List SctpParameter
deriving DecidableEq, Repr

/-- Heartbeat info (`SctpHeartbeatInfo`; `pathid` is `usize`). -/
structure SctpHeartbeatInfo where
  pathid : Nat
  sequence : Nat
  random_value : Nat
deriving DecidableEq, Repr

/-- ABORT contents (`SctpAbortChunk`). -/
structure SctpAbortChunk where
  t_bit : Bool
  error_cause : Option SctpErrorCause
deriving DecidableEq, Repr

/-- An SCTP chunk (`SctpChunk`).  `Heartbeat`/`HeartbeatAck` carry an
opaque payload, the `WithInfo` forms the structured heartbeat record. -/
inductive SctpChunk where
  | data (v : SctpDataChunk)
  | init (v : SctpInitChunk)
  | initAck (v : SctpInitChunk)
  | sack (v : SctpSackChunk)
  | heartbeat (v : Bytes)
  | heartbeatAck (v : Bytes)
  | heartbeatWithInfo (v : SctpHeartbeatInfo)
  | heartbeatAckWithInfo (v : SctpHeartbeatInfo)
  | abort (v : SctpAbortChunk)
  | cookieEcho (v : Bytes)
  | cookieAck
  | shutdown (cum_ack : Nat)
  | shutdownAck
  | shutdownComplete (t_bit : Bool)
  | unknown (chunk_type : Nat) (flags : Nat) (v : Bytes)
deriving DecidableEq, Repr

/-- `SctpChunk::to_bytes`: one writer arm per chunk type, then zero
padding to a four-byte boundary.  The `HeartbeatAckWithInfo` arm is the
source's: it declares chunk length 32 but writes the pathid as a `u64`
where the heartbeat-info parameter type/length belong, writes the length
28 as a further `u64`, and then the three info fields — 44 bytes in all.
`Unknown` falls into the source's `_ => {}` arm and emits nothing. -/
def SctpChunk.to_bytes : SctpChunk → Bytes
  | .data v =>
    pad4 (u8B 0 ++
      u8B ((if v.e_bit then 1 else 0) ||| (if v.b_bit then 2 else 0) |||
           (if v.u_bit then 4 else 0)) ++
      u16B (16 + v.data.length) ++ u32B v.tsn ++ u16B v.stream_id ++
      u16B v.stream_seq ++ u32B v.proto_id ++ v.data)
  | .init v =>
    let param_bytes := (v.params.map SctpParameter.to_bytes).flatten
    pad4 (u8B 1 ++ u8B 0 ++ u16B (20 + param_bytes.length) ++ u32B v.init_tag ++
      u32B v.a_rwnd ++ u16B v.num_out_strm ++ u16B v.num_in_strm ++
      u32B v.init_tsn ++ param_bytes)
  | .initAck v =>
    let param_bytes := (v.params.map SctpParameter.to_bytes).flatten
    pad4 (u8B 2 ++ u8B 0 ++ u16B (20 + param_bytes.length) ++ u32B v.init_tag ++
      u32B v.a_rwnd ++ u16B v.num_out_strm ++ u16B v.num_in_strm ++
      u32B v.init_tsn ++ param_bytes)
  | .sack v =>
    pad4 (u8B 3 ++ u8B 0 ++
      u16B (16 + 4 * v.gap_acks.length + 4 * v.dup_acks.length) ++
      u32B v.cum_ack ++ u32B v.a_rwnd ++ u16B v.num_gap_ack ++ u16B v.num_dup_ack ++
      (v.gap_acks.map (fun g => u16B g.start ++ u16B g.end_)).flatten ++
      (v.dup_acks.map u32B).flatten)
  | .heartbeat v => pad4 (u8B 4 ++ u8B 0 ++ u16B (4 + v.length) ++ v)
  | .heartbeatWithInfo v =>
    pad4 (u8B 4 ++ u8B 0 ++ u16B (4 + 4 + 24) ++ u16B 1 ++ u16B (4 + 24) ++
      u64B v.pathid ++ u64B v.sequence ++ u64B v.random_value)
  | .heartbeatAck v => pad4 (u8B 5 ++ u8B 0 ++ u16B (4 + v.length) ++ v)
  | .heartbeatAckWithInfo v =>
    pad4 (u8B 5 ++ u8B 0 ++ u16B (4 + 4 + 24) ++ u64B v.pathid ++ u64B (4 + 24) ++
      u64B v.pathid ++ u64B v.sequence ++ u64B v.random_value)
  | .abort v =>
    let cause_bytes := match v.error_cause with
      | some cause => cause.to_bytes
      | none => []
    pad4 (u8B 6 ++ u8B (if v.t_bit then 1 else 0) ++
      u16B (4 + cause_bytes.length) ++ cause_bytes)
  | .shutdown cum_ack => pad4 (u8B 7 ++ u8B 0 ++ u16B 8 ++ u32B cum_ack)
  | .shutdownAck => pad4 (u8B 8 ++ u8B 0 ++ u16B 4)
  | .cookieEcho v => pad4 (u8B 10 ++ u8B 0 ++ u16B (4 + v.length) ++ v)
  | .cookieAck => pad4 (u8B 11 ++ u8B 0 ++ u16B 4)
  | .shutdownComplete t_bit =>
    pad4 (u8B 14 ++ u8B (if t_bit then 1 else 0) ++ u16B 4)
  | .unknown _ _ _ => pad4 []

/-- `nom`'s `be_u8`: one byte off the front. -/
def parseU8 : Bytes → Option (Nat × Bytes)
  | b :: rest => some (b, rest)
  | [] => none

/-- `nom`'s `be_u16`. -/
def parseU16 : Bytes → Option (Nat × Bytes)
  | b0 :: b1 :: rest => some (b0 * 256 + b1, rest)
  | _ => none

/-- `nom`'s `be_u32`. -/
def parseU32 : Bytes → Option (Nat × Bytes)
  | b0 :: b1 :: b2 :: b3 :: rest =>
    some (b0 * 16777216 + b1 * 65536 + b2 * 256 + b3, rest)
  | _ => none

/-- `nom`'s `be_u64`. -/
def parseU64 : Bytes → Option (Nat × Bytes)
  | b0 :: b1 :: b2 :: b3 :: b4 :: b5 :: b6 :: b7 :: rest =>
    some (b0 * 72057594037927936 + b1 * 281474976710656 + b2 * 1099511627776 +
      b3 * 4294967296 + b4 * 16777216 + b5 * 65536 + b6 * 256 + b7, rest)
  | _ => none

/-- `nom`'s `take!(n)`: the first `n` bytes and the remainder, failing when
fewer are available. -/
def takeBytes (n : Nat) (i : Bytes) : Option (Bytes × Bytes) :=
  if n ≤ i.length then some (i.take n, i.drop n) else none

/-- `s.chunks(2)` mapped through `(chunk[0] << 8) | chunk[1]`, as in the
supported-addrs and hmac-algo parsers. -/
def chunks2ToU16s : Bytes → List Nat
  | b0 :: b1 :: rest => (b0 * 256 + b1) :: chunks2ToU16s rest
  | _ => []

/-- `s.chunks(4)` mapped to gap-ack blocks, as in the SACK parser. -/
def chunks4ToGaps : Bytes → List SctpGapAckBlock
  | b0 :: b1 :: b2 :: b3 :: rest =>
    ⟨b0 * 256 + b1, b2 * 256 + b3⟩ :: chunks4ToGaps rest
  | _ => []

/-- `s.chunks(4)` mapped to 32-bit duplicate TSNs, as in the SACK parser. -/
def chunks4ToU32s : Bytes → List Nat
  | b0 :: b1 :: b2 :: b3 :: rest =>
    (b0 * 16777216 + b1 * 65536 + b2 * 256 + b3) :: chunks4ToU32s rest
  | _ => []

/-- `SctpParameter::parse_sctp_parameter_ipv4`: `take!(4)` then the four
octets (leftover ignored by the enclosing `flat_map`). -/
def parse_sctp_parameter_ipv4 (i : Bytes) : Option SctpParameter :=
  match i with
  | o0 :: o1 :: o2 :: o3 :: _ => some (.ipv4 o0 o1 o2 o3)
  | _ => none

/-- `SctpParameter::parse_sctp_parameter_ipv6`: `take!(16)` split into eight
big-endian 16-bit groups. -/
def parse_sctp_parameter_ipv6 (i : Bytes) : Option SctpParameter :=
  match i with
  | a0 :: a1 :: b0 :: b1 :: c0 :: c1 :: d0 :: d1 ::
    e0 :: e1 :: f0 :: f1 :: g0 :: g1 :: h0 :: h1 :: _ =>
    some (.ipv6 (a0 * 256 + a1) (b0 * 256 + b1) (c0 * 256 + c1) (d0 * 256 + d1)
      (e0 * 256 + e1) (f0 * 256 + f1) (g0 * 256 + g1) (h0 * 256 + h1))
  | _ => none

/-- `SctpParameter::parse_sctp_parameter_with_type`, applied to the slice
produced by the enclosing `flat_map!(take!(param_length - 4), ...)`; the
slice's leftover is discarded by `flat_map`, so only the parameter is
returned.  The dispatch follows the source's `SctpParameterType` codes. -/
def parse_sctp_parameter_with_type (i : Bytes) (ptype length : Nat) :
    Option SctpParameter :=
  if ptype = 5 then parse_sctp_parameter_ipv4 i
  else if ptype = 6 then parse_sctp_parameter_ipv6 i
  else if ptype = 7 then
    if length ≤ i.length then some (.cookie (i.take length)) else none
  else if ptype = 12 then
    if length = 0 then some (.supportedAddrs [])
    else if length ≠ i.length then none
    else some (.supportedAddrs (chunks2ToU16s i))
  else if ptype = 32768 then
    if length = 0 then some .ecn else none
  else if ptype = 32770 then
    if length ≤ i.length then some (.random (i.take length)) else none
  else if ptype = 32771 then
    if length = 0 then some (.chunks [])
    else if length ≠ i.length then none
    else some (.chunks i)
  else if ptype = 32772 then
    if length = 0 then some (.hmacAlgo [])
    else if length ≠ i.length then none
    else some (.hmacAlgo (chunks2ToU16s i))
  else if ptype = 32776 then
    if length = 0 then some (.supportedExts [])
    else if length ≠ i.length then none
    else some (.supportedExts i)
  else if ptype = 49152 then
    if length = 0 then some .forwardTsn else none
  else
    if length ≤ i.length then some (.unknown ptype (i.take length)) else none

/-- `SctpParameter::parse_sctp_parameter`: type, length,
`flat_map!(take!(param_length - 4), ...)`, then the padding skip.  The
`param_length - 4` subtraction is on `u16`: for lengths below four it
wraps, the oversized take fails and so does the parse, modelled by the
explicit guard. -/
def parse_sctp_parameter (i : Bytes) : Option (SctpParameter × Bytes) :=
  match parseU16 i with
  | none => none
  | some (ptype, i) =>
  match parseU16 i with
  | none => none
  | some (plen, i) =>
  if plen < 4 then none else
  match takeBytes (plen - 4) i with
  | none => none
  | some (body, i) =>
  match parse_sctp_parameter_with_type body ptype (plen - 4) with
  | none => none
  | some param =>
  match (if plen % 4 > 0 then takeBytes (4 - plen % 4) i else some (([] : Bytes), i)) with
  | none => none
  | some (_, i) => some (param, i)

/-- `many0!(complete!(parse_sctp_parameter))` with explicit fuel; a
successful parameter parse consumes at least four bytes, so fuel equal to
the input length never runs out before the parse fails. -/
def parseParams : Nat → Bytes → List SctpParameter × Bytes
  | 0, i => ([], i)
  | fuel + 1, i =>
    match parse_sctp_parameter i with
    | some (p, rest) =>
      let (ps, r) := parseParams fuel rest
      (p :: ps, r)
    | none => ([], i)

/-- `SctpErrorCause::parse_sctp_error_cause_invalid_stream_id`: one
big-endian `u16` (the reserved field and any leftover are discarded). -/
def parse_sctp_error_cause_invalid_stream_id (i : Bytes) : Option SctpErrorCause :=
  match i with
  | b0 :: b1 :: _ => some (.invalidStreamId (b0 * 256 + b1))
  | _ => none

/-- `SctpErrorCause::parse_sctp_error_cause_with_code` on the slice from the
enclosing `flat_map`. -/
def parse_sctp_error_cause_with_code (i : Bytes) (code length : Nat) :
    Option SctpErrorCause :=
  if code = 1 then parse_sctp_error_cause_invalid_stream_id i
  else if code = 12 then
    if length ≤ i.length then some (.userInitiatedAbort (i.take length)) else none
  else if code = 13 then
    if length ≤ i.length then some (.protocolViolation (i.take length)) else none
  else
    if length ≤ i.length then some (.unknown code (i.take length)) else none

/-- `SctpErrorCause::parse_sctp_error_cause`; the `length - 4` subtraction is
again on `u16`, so lengths below four make the take fail (guard). -/
def parse_sctp_error_cause (i : Bytes) : Option (SctpErrorCause × Bytes) :=
  match parseU16 i with
  | none => none
  | some (code, i) =>
  match parseU16 i with
  | none => none
  | some (clen, i) =>
  if clen < 4 then none else
  match takeBytes (clen - 4) i with
  | none => none
  | some (body, i) =>
  match parse_sctp_error_cause_with_code body code (clen - 4) with
  | none => none
  | some cause => some (cause, i)

/-- `SctpChunk::parse_sctp_chunk_data` on the body slice; `length` is the
body length (`usize`), and `take!(length - 12)` underflows into an
oversized, failing take when the body is shorter than the fixed fields
(guard). -/
def parse_sctp_chunk_data (i : Bytes) (length flags : Nat) : Option SctpChunk :=
  match parseU32 i with
  | none => none
  | some (tsn, i) =>
  match parseU16 i with
  | none => none
  | some (sid, i) =>
  match parseU16 i with
  | none => none
  | some (seq, i) =>
  match parseU32 i with
  | none => none
  | some (pid, i) =>
  if length < 12 then none else
  match takeBytes (length - 12) i with
  | none => none
  | some (v, _) =>
    some (.data ⟨flags &&& 4 ≠ 0, flags &&& 2 ≠ 0, flags &&& 1 ≠ 0, tsn, sid, seq, pid, v⟩)

/-- `SctpChunk::parse_sctp_chunk_init` on the body slice; the trailing
parameters are `many0`, which consumes parameters until a parse fails and
leaves the rest (discarded by the enclosing `flat_map`). -/
def parse_sctp_chunk_init (i : Bytes) (isInit : Bool) : Option SctpChunk :=
  match parseU32 i with
  | none => none
  | some (itag, i) =>
  match parseU32 i with
  | none => none
  | some (arwnd, i) =>
  match parseU16 i with
  | none => none
  | some (os, i) =>
  match parseU16 i with
  | none => none
  | some (is_, i) =>
  match parseU32 i with
  | none => none
  | some (itsn, i) =>
  let contents : SctpInitChunk := ⟨itag, arwnd, os, is_, itsn, (parseParams i.length i).1⟩
  some (if isInit then .init contents else .initAck contents)

/-- `SctpChunk::parse_sctp_chunk_sack` on the body slice; the gap and
duplicate arrays are sized from the count fields. -/
def parse_sctp_chunk_sack (i : Bytes) : Option SctpChunk :=
  match parseU32 i with
  | none => none
  | some (cack, i) =>
  match parseU32 i with
  | none => none
  | some (arwnd, i) =>
  match parseU16 i with
  | none => none
  | some (ngap, i) =>
  match parseU16 i with
  | none => none
  | some (ndup, i) =>
  match takeBytes (2 * 2 * ngap) i with
  | none => none
  | some (gapBytes, i) =>
  match takeBytes (4 * ndup) i with
  | none => none
  | some (dupBytes, _) =>
    some (.sack ⟨cack, arwnd, ngap, ndup, chunks4ToGaps gapBytes, chunks4ToU32s dupBytes⟩)

/-- `SctpChunk::parse_sctp_chunk_abort` on the body slice: when the body is
nonempty, `flat_map!(take!(length), parse_sctp_error_cause)` parses one
cause from it (leftover discarded). -/
def parse_sctp_chunk_abort (i : Bytes) (length flags : Nat) : Option SctpChunk :=
  if length > 0 then
    match takeBytes length i with
    | none => none
    | some (body, _) =>
    match parse_sctp_error_cause body with
    | none => none
    | some (cause, _) => some (.abort ⟨flags &&& 1 ≠ 0, some cause⟩)
  else
    some (.abort ⟨flags &&& 1 ≠ 0, none⟩)

/-- `SctpChunk::parse_sctp_chunk_heartbeat_ack` on the body slice: skips the
info type and length fields and reads the three info values as `u64`s. -/
def parse_sctp_chunk_heartbeat_ack (i : Bytes) : Option SctpChunk :=
  match parseU16 i with
  | none => none
  | some (_info_type, i) =>
  match parseU16 i with
  | none => none
  | some (_info_length, i) =>
  match parseU64 i with
  | none => none
  | some (pathid, i) =>
  match parseU64 i with
  | none => none
  | some (sequence, i) =>
  match parseU64 i with
  | none => none
  | some (random_value, _) =>
    some (.heartbeatAckWithInfo ⟨pathid, sequence, random_value⟩)

/-- `SctpChunk::parse_sctp_chunk_with_type` on the body slice, dispatching
on the source's `SctpChunkType` codes; unsupported types fall through to
`Unknown`. -/
def parse_sctp_chunk_with_type (i : Bytes) (ctype length flags : Nat) :
    Option SctpChunk :=
  if ctype = 0 then parse_sctp_chunk_data i length flags
  else if ctype = 1 then parse_sctp_chunk_init i true
  else if ctype = 2 then parse_sctp_chunk_init i false
  else if ctype = 3 then parse_sctp_chunk_sack i
  else if ctype = 6 then parse_sctp_chunk_abort i length flags
  else if ctype = 4 then (takeBytes length i).map (fun t => .heartbeat t.1)
  else if ctype = 5 then parse_sctp_chunk_heartbeat_ack i
  else if ctype = 7 then (parseU32 i).map (fun t => .shutdown t.1)
  else if ctype = 8 then some .shutdownAck
  else if ctype = 10 then (takeBytes length i).map (fun t => .cookieEcho t.1)
  else if ctype = 11 then some .cookieAck
  else if ctype = 14 then
    if i.length > 0 then none else some (.shutdownComplete (flags &&& 1 ≠ 0))
  else (takeBytes length i).map (fun t => .unknown ctype flags t.1)

/-- `SctpChunk::parse_sctp_chunk`: type, flags, length,
`flat_map!(take!(length - 4), ...)`, then the padding skip.  `length - 4`
is `u16` arithmetic, so lengths below four wrap into a failing take
(guard). -/
def parse_sctp_chunk (i : Bytes) : Option (SctpChunk × Bytes) :=
  match parseU8 i with
  | none => none
  | some (ctype, i) =>
  match parseU8 i with
  | none => none
  | some (flags, i) =>
  match parseU16 i with
  | none => none
  | some (length, i) =>
  if length < 4 then none else
  match takeBytes (length - 4) i with
  | none => none
  | some (body, i) =>
  match parse_sctp_chunk_with_type body ctype (length - 4) flags with
  | none => none
  | some chunk =>
  match (if length % 4 > 0 then takeBytes (4 - length % 4) i else some (([] : Bytes), i)) with
  | none => none
  | some (_, i) => some (chunk, i)

/-- `SctpChunk::from_bytes`: any parse error becomes `InvalidChunk`; on
success the consumed count is the input length minus the leftover. -/
def SctpChunk.from_bytes (bytes : Bytes) : Outcome (SctpChunk × Nat) :=
  match parse_sctp_chunk bytes with
  | some (chunk, remain) => .ok (chunk, bytes.length - remain.length)
  | none => .fail .invalidChunk

/-- A state cookie (`SctpStateCookie`). -/
structure SctpStateCookie where
  init : SctpChunk
  init_ack : SctpChunk
  my_vtag : Nat
  peer_vtag : Nat
  src_port : Nat
  dst_port : Nat
  dst_addr : IpAddr
  time : Nat
deriving DecidableEq, Repr

/-- `SctpStateCookie::parse_sctp_state_cookie`: two chunks, the numeric
fields, then one parameter giving the destination address (non-address
parameters degrade to 0.0.0.0). -/
def parse_sctp_state_cookie (i : Bytes) : Option (SctpStateCookie × Bytes) :=
  match parse_sctp_chunk i with
  | none => none
  | some (init, i) =>
  match parse_sctp_chunk i with
  | none => none
  | some (init_ack, i) =>
  match parseU32 i with
  | none => none
  | some (my_vtag, i) =>
  match parseU32 i with
  | none => none
  | some (peer_vtag, i) =>
  match parseU16 i with
  | none => none
  | some (src_port, i) =>
  match parseU16 i with
  | none => none
  | some (dst_port, i) =>
  match parseU64 i with
  | none => none
  | some (time, i) =>
  match parse_sctp_parameter i with
  | none => none
  | some (param, i) =>
  let dst_addr := match param with
    | .ipv4 a b c d => IpAddr.v4 a b c d
    | .ipv6 a b c d e f g h => IpAddr.v6 a b c d e f g h
    | _ => IpAddr.v4 0 0 0 0
  some (⟨init, init_ack, my_vtag, peer_vtag, src_port, dst_port, dst_addr, time⟩, i)

/-- `SctpStateCookie::from_bytes`, parameterized by the HMAC-SHA-256
function of the external crypto crate (`hmac key message`, a 32-byte
tag): too-short inputs are rejected as `BufferTooShort`, a tag mismatch
over the input minus its trailing 32 bytes as `InvalidChunk`, then the
authenticated prefix is parsed. -/
def SctpStateCookie.from_bytes (hmac : Bytes → Bytes → Bytes) (key bytes : Bytes) :
    Outcome (SctpStateCookie × Nat) :=
  if bytes.length < 32 then .fail .bufferTooShort
  else if hmac key (bytes.take (bytes.length - 32)) ≠ bytes.drop (bytes.length - 32) then
    .fail .invalidChunk
  else match parse_sctp_state_cookie (bytes.take (bytes.length - 32)) with
    | some (cookie, remain) => .ok (cookie, bytes.length - remain.length)
    | none => .fail .invalidChunk

/-- The authenticated portion written by `SctpStateCookie::to_bytes` on a
fresh buffer: the two chunks, the numeric fields and the address
parameter. -/
def SctpStateCookie.body_bytes (c : SctpStateCookie) : Bytes :=
  c.init.to_bytes ++ c.init_ack.to_bytes ++ u32B c.my_vtag ++
    u32B c.peer_vtag ++ u16B c.src_port ++ u16B c.dst_port ++ u64B c.time ++
    (match c.dst_addr with
     | .v4 a0 a1 a2 a3 => (SctpParameter.ipv4 a0 a1 a2 a3).to_bytes
     | .v6 g0 g1 g2 g3 g4 g5 g6 g7 =>
       (SctpParameter.ipv6 g0 g1 g2 g3 g4 g5 g6 g7).to_bytes)

/-- `SctpStateCookie::to_bytes` on a fresh buffer: the authenticated body
followed by the HMAC tag of everything written so far. -/
def SctpStateCookie.to_bytes (hmac : Bytes → Bytes → Bytes) (key : Bytes)
    (c : SctpStateCookie) : Bytes :=
  c.body_bytes ++ hmac key c.body_bytes

/-! ## Codec round-trip lemmas -/

lemma parseU8_u8B (v : Nat) (rest : Bytes) (h : v < 256) :
    parseU8 (u8B v ++ rest) = some (v, rest) := by
  simp [parseU8, u8B, Nat.mod_eq_of_lt h]

lemma parseU16_u16B (v : Nat) (rest : Bytes) (h : v < 65536) :
    parseU16 (u16B v ++ rest) = some (v, rest) := by
  simp only [parseU16, u16B, List.cons_append, List.nil_append]
  congr 1
  congr 1
  omega

lemma parseU32_u32B (v : Nat) (rest : Bytes) (h : v < 4294967296) :
    parseU32 (u32B v ++ rest) = some (v, rest) := by
  simp only [parseU32, u32B, List.cons_append, List.nil_append]
  congr 1
  congr 1
  omega

lemma parseU64_u64B (v : Nat) (rest : Bytes) (h : v < 18446744073709551616) :
    parseU64 (u64B v ++ rest) = some (v, rest) := by
  simp only [parseU64, u64B, List.cons_append, List.nil_append]
  congr 1
  congr 1
  omega

lemma takeBytes_exact (n : Nat) (xs rest : Bytes) (h : xs.length = n) :
    takeBytes n (xs ++ rest) = some (xs, rest) := by
  subst h
  simp [takeBytes, List.take_left, List.drop_left]

lemma pad4_length_mod (l : Bytes) : (pad4 l).length % 4 = 0 := by
  simp only [pad4, List.length_append, List.length_replicate]
  omega

lemma param_to_bytes_length_mod (p : SctpParameter) :
    (SctpParameter.to_bytes p).length % 4 = 0 := by
  cases p <;> exact pad4_length_mod _

lemma params_flatten_length_mod (ps : List SctpParameter) :
    ((ps.map SctpParameter.to_bytes).flatten).length % 4 = 0 := by
  induction ps with
  | nil => simp
  | cons p ps ih =>
    simp only [List.map_cons, List.flatten_cons, List.length_append]
    have h := param_to_bytes_length_mod p
    omega


lemma parse_param_generic (t n : Nat) (payload rest : Bytes)
    (ht : t < 65536) (hn : 4 + n < 65536) (hlen : payload.length = n) :
    parse_sctp_parameter (pad4 (u16B t ++ u16B (4 + n) ++ payload) ++ rest) =
      (parse_sctp_parameter_with_type payload t n).bind fun p => some (p, rest) := by
  have hmod : (4 + n) % 4 = n % 4 := Nat.add_mod_left 4 n
  have hpad : pad4 (u16B t ++ u16B (4 + n) ++ payload) ++ rest =
      u16B t ++ (u16B (4 + n) ++ (payload ++ (List.replicate ((4 - n % 4) % 4) 0 ++ rest))) := by
    simp [pad4, u16B, List.append_assoc, hlen]
    omega
  rw [hpad]
  have hguard : ¬ (4 + n < 4) := by omega
  simp only [parse_sctp_parameter, parseU16_u16B t _ ht, parseU16_u16B (4 + n) _ hn, hguard,
    if_false, Nat.add_sub_cancel_left, hmod, takeBytes_exact n payload _ hlen]
  by_cases h4 : n % 4 = 0
  · simp only [h4, Nat.lt_irrefl, if_false, gt_iff_lt, Nat.sub_zero, List.replicate,
      List.nil_append]
    cases parse_sctp_parameter_with_type payload t n <;> simp
  · have hc : (4 - n % 4) % 4 = 4 - n % 4 := by omega
    rw [hc]
    simp only [gt_iff_lt, if_pos (Nat.pos_of_ne_zero h4),
      takeBytes_exact _ _ rest (List.length_replicate _ _)]
    cases parse_sctp_parameter_with_type payload t n <;> simp

/-- The subset of parameters that the writer serializes faithfully within
the `u16` length budget: element values fit their field widths, the
length field fits in 16 bits, unknown types are the ones the parser does
not recognize, and the writer-silent `CookiePreserv`/`Hostname` forms are
excluded. -/
def SctpParameter.wf : SctpParameter → Bool
  | .ipv4 o0 o1 o2 o3 => decide (o0 < 256 ∧ o1 < 256 ∧ o2 < 256 ∧ o3 < 256)
  | .ipv6 g0 g1 g2 g3 g4 g5 g6 g7 =>
    decide (g0 < 65536 ∧ g1 < 65536 ∧ g2 < 65536 ∧ g3 < 65536 ∧
      g4 < 65536 ∧ g5 < 65536 ∧ g6 < 65536 ∧ g7 < 65536)
  | .cookie v => decide (4 + v.length < 65536)
  | .cookiePreserv _ => false
  | .hostname _ => false
  | .supportedAddrs v =>
    v.all (fun x => decide (x < 65536)) && decide (4 + 2 * v.length < 65536)
  | .ecn => true
  | .random v => decide (4 + v.length < 65536)
  | .chunks v => v.all (fun x => decide (x < 256)) && decide (4 + v.length < 65536)
  | .hmacAlgo v =>
    v.all (fun x => decide (x < 65536)) && decide (4 + 2 * v.length < 65536)
  | .supportedExts v => v.all (fun x => decide (x < 256)) && decide (4 + v.length < 65536)
  | .forwardTsn => true
  | .unknown t v =>
    decide (t < 65536) && decide (4 + v.length < 65536) &&
    !(t = 5 || t = 6 || t = 7 || t = 12 || t = 32768 || t = 32770 || t = 32771 ||
      t = 32772 || t = 32776 || t = 49152)

lemma chunks2ToU16s_flatten (v : List Nat) (h : ∀ x ∈ v, x < 65536) :
    chunks2ToU16s ((v.map u16B).flatten) = v := by
  induction v with
  | nil => simp [chunks2ToU16s]
  | cons x xs ih =>
    have hx : x < 65536 := h x (by simp)
    simp only [List.map_cons, List.flatten_cons, u16B, List.cons_append, List.nil_append]
    rw [chunks2ToU16s]
    rw [ih (fun y hy => h y (by simp [hy]))]
    congr 1
    omega

lemma u16B_flatten_length (v : List Nat) : ((v.map u16B).flatten).length = 2 * v.length := by
  induction v with
  | nil => simp
  | cons x xs ih => simp [u16B] at ih ⊢; omega

lemma u8B_flatten_eq (v : List Nat) (h : ∀ x ∈ v, x < 256) :
    ((v.map u8B).flatten) = v := by
  induction v with
  | nil => simp
  | cons x xs ih =>
    simp only [List.map_cons, List.flatten_cons, u8B, List.cons_append, List.nil_append]
    rw [ih (fun y hy => h y (by simp [hy])), Nat.mod_eq_of_lt (h x (by simp))]

lemma u8B_flatten_length (v : List Nat) : ((v.map u8B).flatten).length = v.length := by
  induction v with
  | nil => simp
  | cons x xs ih => simp [u8B] at ih ⊢; omega

lemma with_type_5 (i : Bytes) (n : Nat) :
    parse_sctp_parameter_with_type i 5 n = parse_sctp_parameter_ipv4 i := rfl

lemma with_type_6 (i : Bytes) (n : Nat) :
    parse_sctp_parameter_with_type i 6 n = parse_sctp_parameter_ipv6 i := rfl

lemma with_type_7 (i : Bytes) (n : Nat) :
    parse_sctp_parameter_with_type i 7 n =
      (if n ≤ i.length then some (.cookie (i.take n)) else none) := rfl

lemma with_type_12 (i : Bytes) (n : Nat) :
    parse_sctp_parameter_with_type i 12 n =
      (if n = 0 then some (.supportedAddrs [])
       else if n ≠ i.length then none
       else some (.supportedAddrs (chunks2ToU16s i))) := rfl

lemma with_type_32768 (i : Bytes) (n : Nat) :
    parse_sctp_parameter_with_type i 32768 n =
      (if n = 0 then some .ecn else none) := rfl

lemma with_type_32770 (i : Bytes) (n : Nat) :
    parse_sctp_parameter_with_type i 32770 n =
      (if n ≤ i.length then some (.random (i.take n)) else none) := rfl

lemma with_type_32771 (i : Bytes) (n : Nat) :
    parse_sctp_parameter_with_type i 32771 n =
      (if n = 0 then some (.chunks [])
       else if n ≠ i.length then none
       else some (.chunks i)) := rfl

lemma with_type_32772 (i : Bytes) (n : Nat) :
    parse_sctp_parameter_with_type i 32772 n =
      (if n = 0 then some (.hmacAlgo [])
       else if n ≠ i.length then none
       else some (.hmacAlgo (chunks2ToU16s i))) := rfl

lemma with_type_32776 (i : Bytes) (n : Nat) :
    parse_sctp_parameter_with_type i 32776 n =
      (if n = 0 then some (.supportedExts [])
       else if n ≠ i.length then none
       else some (.supportedExts i)) := rfl

lemma with_type_49152 (i : Bytes) (n : Nat) :
    parse_sctp_parameter_with_type i 49152 n =
      (if n = 0 then some .forwardTsn else none) := rfl

lemma param_roundtrip (p : SctpParameter) (rest : Bytes) (hwf : p.wf = true) :
    parse_sctp_parameter (p.to_bytes ++ rest) = some (p, rest) := by
  cases p with
  | ipv4 o0 o1 o2 o3 =>
    simp only [SctpParameter.wf, decide_eq_true_eq] at hwf
    simp only [SctpParameter.to_bytes]
    rw [show (8 : Nat) = 4 + 4 from rfl,
      parse_param_generic 5 4 [o0, o1, o2, o3] rest (by omega) (by omega) (by simp),
      with_type_5]
    simp [parse_sctp_parameter_ipv4]
  | ipv6 g0 g1 g2 g3 g4 g5 g6 g7 =>
    simp only [SctpParameter.wf, decide_eq_true_eq] at hwf
    obtain ⟨h0, h1, h2, h3, h4, h5, h6, h7⟩ := hwf
    simp only [SctpParameter.to_bytes]
    have hre : u16B 6 ++ u16B 20 ++ u16B g0 ++ u16B g1 ++ u16B g2 ++ u16B g3 ++
        u16B g4 ++ u16B g5 ++ u16B g6 ++ u16B g7 =
        u16B 6 ++ u16B (4 + 16) ++
          (u16B g0 ++ (u16B g1 ++ (u16B g2 ++ (u16B g3 ++
           (u16B g4 ++ (u16B g5 ++ (u16B g6 ++ u16B g7))))))) := by
      simp [List.append_assoc]
    rw [hre,
      parse_param_generic 6 16 _ rest (by omega) (by omega) (by simp [u16B]),
      with_type_6]
    simp only [u16B, List.cons_append, List.nil_append, parse_sctp_parameter_ipv6,
      Option.some_bind]
    have he : ∀ g : Nat, g < 65536 → g / 256 % 256 * 256 + g % 256 = g := by
      intro g hg
      omega
    rw [he g0 h0, he g1 h1, he g2 h2, he g3 h3, he g4 h4, he g5 h5, he g6 h6, he g7 h7]
  | cookie v =>
    simp only [SctpParameter.wf, decide_eq_true_eq] at hwf
    simp only [SctpParameter.to_bytes]
    rw [parse_param_generic 7 v.length v rest (by omega) (by omega) rfl, with_type_7]
    simp
  | supportedAddrs v =>
    simp only [SctpParameter.wf, Bool.and_eq_true, List.all_eq_true, decide_eq_true_eq] at hwf
    obtain ⟨helts, hlen⟩ := hwf
    simp only [SctpParameter.to_bytes]
    rw [show 4 + 2 * v.length = 4 + ((v.map u16B).flatten).length by rw [u16B_flatten_length],
      parse_param_generic 12 _ _ rest (by omega) (by rw [u16B_flatten_length]; omega) rfl,
      with_type_12]
    by_cases hv0 : v = []
    · subst hv0
      simp [chunks2ToU16s]
    · have hne : ((v.map u16B).flatten).length ≠ 0 := by
        rw [u16B_flatten_length]
        rcases v with _ | ⟨x, xs⟩
        · exact absurd rfl hv0
        · simp
      rw [if_neg hne, if_neg (by simp), chunks2ToU16s_flatten v (fun x hx => helts x hx)]
      rfl
  | ecn =>
    simp only [SctpParameter.to_bytes]
    rw [show (u16B 32768 ++ u16B 4 : Bytes) = u16B 32768 ++ u16B (4 + 0) ++ [] from by simp,
      parse_param_generic 32768 0 [] rest (by omega) (by omega) rfl, with_type_32768]
    simp
  | random v =>
    simp only [SctpParameter.wf, decide_eq_true_eq] at hwf
    simp only [SctpParameter.to_bytes]
    rw [parse_param_generic 32770 v.length v rest (by omega) (by omega) rfl, with_type_32770]
    simp
  | chunks v =>
    simp only [SctpParameter.wf, Bool.and_eq_true, List.all_eq_true, decide_eq_true_eq] at hwf
    obtain ⟨helts, hlen⟩ := hwf
    simp only [SctpParameter.to_bytes]
    rw [show 4 + 1 * v.length = 4 + ((v.map u8B).flatten).length by
        rw [u8B_flatten_length]; omega,
      parse_param_generic 32771 _ _ rest (by omega) (by rw [u8B_flatten_length]; omega) rfl,
      with_type_32771]
    by_cases hv0 : v = []
    · subst hv0
      simp
    · have hne : ((v.map u8B).flatten).length ≠ 0 := by
        rw [u8B_flatten_length]
        rcases v with _ | ⟨x, xs⟩
        · exact absurd rfl hv0
        · simp
      rw [if_neg hne, if_neg (by simp), u8B_flatten_eq v (fun x hx => helts x hx)]
      rfl
  | hmacAlgo v =>
    simp only [SctpParameter.wf, Bool.and_eq_true, List.all_eq_true, decide_eq_true_eq] at hwf
    obtain ⟨helts, hlen⟩ := hwf
    simp only [SctpParameter.to_bytes]
    rw [show 4 + 2 * v.length = 4 + ((v.map u16B).flatten).length by rw [u16B_flatten_length],
      parse_param_generic 32772 _ _ rest (by omega) (by rw [u16B_flatten_length]; omega) rfl,
      with_type_32772]
    by_cases hv0 : v = []
    · subst hv0
      simp [chunks2ToU16s]
    · have hne : ((v.map u16B).flatten).length ≠ 0 := by
        rw [u16B_flatten_length]
        rcases v with _ | ⟨x, xs⟩
        · exact absurd rfl hv0
        · simp
      rw [if_neg hne, if_neg (by simp), chunks2ToU16s_flatten v (fun x hx => helts x hx)]
      rfl
  | supportedExts v =>
    simp only [SctpParameter.wf, Bool.and_eq_true, List.all_eq_true, decide_eq_true_eq] at hwf
    obtain ⟨helts, hlen⟩ := hwf
    simp only [SctpParameter.to_bytes]
    rw [show 4 + 1 * v.length = 4 + ((v.map u8B).flatten).length by
        rw [u8B_flatten_length]; omega,
      parse_param_generic 32776 _ _ rest (by omega) (by rw [u8B_flatten_length]; omega) rfl,
      with_type_32776]
    by_cases hv0 : v = []
    · subst hv0
      simp
    · have hne : ((v.map u8B).flatten).length ≠ 0 := by
        rw [u8B_flatten_length]
        rcases v with _ | ⟨x, xs⟩
        · exact absurd rfl hv0
        · simp
      rw [if_neg hne, if_neg (by simp), u8B_flatten_eq v (fun x hx => helts x hx)]
      rfl
  | forwardTsn =>
    simp only [SctpParameter.to_bytes]
    rw [show (u16B 49152 ++ u16B 4 : Bytes) = u16B 49152 ++ u16B (4 + 0) ++ [] from by simp,
      parse_param_generic 49152 0 [] rest (by omega) (by omega) rfl, with_type_49152]
    simp
  | unknown t v =>
    simp only [SctpParameter.wf, Bool.and_eq_true, Bool.not_eq_true', Bool.or_eq_false_iff,
      decide_eq_true_eq, decide_eq_false_iff_not] at hwf
    obtain ⟨⟨ht, hlen⟩, hne⟩ := hwf
    obtain ⟨⟨⟨⟨⟨⟨⟨⟨⟨h5, h6⟩, h7⟩, h12⟩, h768⟩, h770⟩, h771⟩, h772⟩, h776⟩, h152⟩ := hne
    simp only [SctpParameter.to_bytes]
    rw [parse_param_generic t v.length v rest (by omega) (by omega) rfl]
    rw [parse_sctp_parameter_with_type]
    rw [if_neg h5, if_neg h6, if_neg h7, if_neg h12, if_neg h768, if_neg h770, if_neg h771,
      if_neg h772, if_neg h776, if_neg h152, if_pos (le_refl v.length), List.take_length]
    rfl
  | cookiePreserv v => simp [SctpParameter.wf] at hwf
  | hostname v => simp [SctpParameter.wf] at hwf

lemma parse_sctp_parameter_nil : parse_sctp_parameter [] = none := rfl

lemma pad4_length_ge (l : Bytes) : l.length ≤ (pad4 l).length := by
  simp [pad4]

lemma param_to_bytes_length_pos (p : SctpParameter) (hwf : p.wf = true) :
    4 ≤ (SctpParameter.to_bytes p).length := by
  cases p <;>
    simp_all [SctpParameter.to_bytes, SctpParameter.wf, pad4, u16B]

lemma parseParams_roundtrip (ps : List SctpParameter) (hwf : ∀ p ∈ ps, p.wf = true) :
    ∀ fuel, ps.length ≤ fuel →
      parseParams fuel ((ps.map SctpParameter.to_bytes).flatten) = (ps, []) := by
  induction ps with
  | nil =>
    intro fuel _
    cases fuel with
    | zero => rfl
    | succ f => simp [parseParams, parse_sctp_parameter_nil]
  | cons p ps ih =>
    intro fuel hf
    cases fuel with
    | zero => simp at hf
    | succ f =>
      simp only [List.map_cons, List.flatten_cons, parseParams,
        param_roundtrip p _ (hwf p (by simp)),
        ih (fun q hq => hwf q (by simp [hq])) f (by simpa using Nat.lt_succ_iff.mp hf)]

lemma params_length_le_flatten (ps : List SctpParameter)
    (hwf : ∀ p ∈ ps, p.wf = true) :
    ps.length ≤ ((ps.map SctpParameter.to_bytes).flatten).length := by
  induction ps with
  | nil => simp
  | cons p ps ih =>
    have h4 := param_to_bytes_length_pos p (hwf p (by simp))
    have hr := ih (fun q hq => hwf q (by simp [hq]))
    simp only [List.map_cons, List.flatten_cons, List.length_cons, List.length_append]
    omega

lemma parse_chunk_generic (ct fl n : Nat) (body rest : Bytes)
    (hct : ct < 256) (hfl : fl < 256) (hn : 4 + n < 65536) (hb : body.length = n) :
    parse_sctp_chunk (pad4 (u8B ct ++ u8B fl ++ u16B (4 + n) ++ body) ++ rest) =
      ( parse_sctp_chunk_with_type body ct n fl).bind fun c => some (c, rest) := by
  have hmod : (4 + n) % 4 = n % 4 := Nat.add_mod_left 4 n
  have hpad : pad4 (u8B ct ++ u8B fl ++ u16B (4 + n) ++ body) ++ rest =
      u8B ct ++ (u8B fl ++ (u16B (4 + n) ++
        (body ++ (List.replicate ((4 - n % 4) % 4) 0 ++ rest)))) := by
    simp [pad4, u8B, u16B, List.append_assoc, hb]
    omega
  rw [hpad]
  have hguard : ¬ (4 + n < 4) := by omega
  simp only [parse_sctp_chunk, parseU8_u8B ct _ hct, parseU8_u8B fl _ hfl,
    parseU16_u16B (4 + n) _ hn, hguard, if_false, Nat.add_sub_cancel_left, hmod,
    takeBytes_exact n body _ hb]
  by_cases h4 : n % 4 = 0
  · simp only [h4, Nat.lt_irrefl, if_false, gt_iff_lt, Nat.sub_zero, List.replicate,
      List.nil_append]
    cases parse_sctp_chunk_with_type body ct n fl <;> simp
  · have hc : (4 - n % 4) % 4 = 4 - n % 4 := by omega
    rw [hc]
    simp only [gt_iff_lt, if_pos (Nat.pos_of_ne_zero h4),
      takeBytes_exact _ _ rest (List.length_replicate _ _)]
    cases parse_sctp_chunk_with_type body ct n fl <;> simp

lemma with_ctype_1 (i : Bytes) (n fl : Nat) :
    parse_sctp_chunk_with_type i 1 n fl = parse_sctp_chunk_init i true := rfl

lemma with_ctype_2 (i : Bytes) (n fl : Nat) :
    parse_sctp_chunk_with_type i 2 n fl = parse_sctp_chunk_init i false := rfl

/-- INIT/INIT-ACK contents whose writer output reads back exactly: numeric
fields within their wire widths, well-formed parameters, total length under
the `u16` budget. -/
def SctpInitChunk.wf (v : SctpInitChunk) : Bool :=
  decide (v.init_tag < 4294967296) && decide (v.a_rwnd < 4294967296) &&
  decide (v.num_out_strm < 65536) && decide (v.num_in_strm < 65536) &&
  decide (v.init_tsn < 4294967296) && v.params.all SctpParameter.wf &&
  decide (20 + ((v.params.map SctpParameter.to_bytes).flatten).length < 65536)

lemma parse_init_body (v : SctpInitChunk) (hwf : v.wf = true) (isInit : Bool) :
    parse_sctp_chunk_init
      (u32B v.init_tag ++ u32B v.a_rwnd ++ u16B v.num_out_strm ++ u16B v.num_in_strm ++
        u32B v.init_tsn ++ (v.params.map SctpParameter.to_bytes).flatten) isInit =
      some (if isInit then .init v else .initAck v) := by
  obtain ⟨itag, arwnd, os, is_, itsn, ps⟩ := v
  simp only [SctpInitChunk.wf, Bool.and_eq_true, List.all_eq_true, decide_eq_true_eq] at hwf
  obtain ⟨⟨⟨⟨⟨⟨h1, h2⟩, h3⟩, h4⟩, h5⟩, hps⟩, hbud⟩ := hwf
  have hre : u32B itag ++ u32B arwnd ++ u16B os ++ u16B is_ ++ u32B itsn ++
      (List.map SctpParameter.to_bytes ps).flatten =
      u32B itag ++ (u32B arwnd ++ (u16B os ++ (u16B is_ ++ (u32B itsn ++
        (List.map SctpParameter.to_bytes ps).flatten)))) := by
    simp [List.append_assoc]
  rw [hre]
  have hfuel : ps.length ≤ ((ps.map SctpParameter.to_bytes).flatten).length :=
    params_length_le_flatten ps hps
  simp only [parse_sctp_chunk_init, parseU32_u32B itag _ h1, parseU32_u32B arwnd _ h2,
    parseU16_u16B os _ h3, parseU16_u16B is_ _ h4, parseU32_u32B itsn _ h5,
    parseParams_roundtrip ps hps _ hfuel]

lemma init_chunk_roundtrip (v : SctpInitChunk) (hwf : v.wf = true) (rest : Bytes) :
    parse_sctp_chunk ((SctpChunk.init v).to_bytes ++ rest) = some (.init v, rest) := by
  have hbud : 20 + ((v.params.map SctpParameter.to_bytes).flatten).length < 65536 := by
    have := hwf
    simp only [SctpInitChunk.wf, Bool.and_eq_true, decide_eq_true_eq] at this
    exact this.2
  simp only [SctpChunk.to_bytes]
  have hre : u8B 1 ++ u8B 0 ++
      u16B (20 + ((v.params.map SctpParameter.to_bytes).flatten).length) ++
      u32B v.init_tag ++ u32B v.a_rwnd ++ u16B v.num_out_strm ++ u16B v.num_in_strm ++
      u32B v.init_tsn ++ (v.params.map SctpParameter.to_bytes).flatten =
      u8B 1 ++ u8B 0 ++
      u16B (4 + (16 + ((v.params.map SctpParameter.to_bytes).flatten).length)) ++
      (u32B v.init_tag ++ u32B v.a_rwnd ++ u16B v.num_out_strm ++ u16B v.num_in_strm ++
       u32B v.init_tsn ++ (v.params.map SctpParameter.to_bytes).flatten) := by
    rw [show 20 + ((v.params.map SctpParameter.to_bytes).flatten).length =
        4 + (16 + ((v.params.map SctpParameter.to_bytes).flatten).length) by omega]
    simp [List.append_assoc]
  rw [hre, parse_chunk_generic 1 0 _ _ rest (by omega) (by omega) (by omega)
      (by simp [u32B, u16B]; omega), with_ctype_1, parse_init_body v hwf true]
  rfl

lemma initAck_chunk_roundtrip (v : SctpInitChunk) (hwf : v.wf = true) (rest : Bytes) :
    parse_sctp_chunk ((SctpChunk.initAck v).to_bytes ++ rest) = some (.initAck v, rest) := by
  have hbud : 20 + ((v.params.map SctpParameter.to_bytes).flatten).length < 65536 := by
    have := hwf
    simp only [SctpInitChunk.wf, Bool.and_eq_true, decide_eq_true_eq] at this
    exact this.2
  simp only [SctpChunk.to_bytes]
  have hre : u8B 2 ++ u8B 0 ++
      u16B (20 + ((v.params.map SctpParameter.to_bytes).flatten).length) ++
      u32B v.init_tag ++ u32B v.a_rwnd ++ u16B v.num_out_strm ++ u16B v.num_in_strm ++
      u32B v.init_tsn ++ (v.params.map SctpParameter.to_bytes).flatten =
      u8B 2 ++ u8B 0 ++
      u16B (4 + (16 + ((v.params.map SctpParameter.to_bytes).flatten).length)) ++
      (u32B v.init_tag ++ u32B v.a_rwnd ++ u16B v.num_out_strm ++ u16B v.num_in_strm ++
       u32B v.init_tsn ++ (v.params.map SctpParameter.to_bytes).flatten) := by
    rw [show 20 + ((v.params.map SctpParameter.to_bytes).flatten).length =
        4 + (16 + ((v.params.map SctpParameter.to_bytes).flatten).length) by omega]
    simp [List.append_assoc]
  rw [hre, parse_chunk_generic 2 0 _ _ rest (by omega) (by omega) (by omega)
      (by simp [u32B, u16B]; omega), with_ctype_2, parse_init_body v hwf false]
  rfl

/-- A state cookie whose writer output reads back exactly: the embedded
chunks are a well-formed INIT and INIT-ACK, and the numeric fields and
address fit their wire widths. -/
def SctpStateCookie.wf (c : SctpStateCookie) : Bool :=
  (match c.init with
   | .init v => v.wf
   | _ => false) &&
  (match c.init_ack with
   | .initAck v => v.wf
   | _ => false) &&
  decide (c.my_vtag < 4294967296) && decide (c.peer_vtag < 4294967296) &&
  decide (c.src_port < 65536) && decide (c.dst_port < 65536) &&
  decide (c.time < 18446744073709551616) &&
  (match c.dst_addr with
   | .v4 o0 o1 o2 o3 => (SctpParameter.ipv4 o0 o1 o2 o3).wf
   | .v6 g0 g1 g2 g3 g4 g5 g6 g7 => (SctpParameter.ipv6 g0 g1 g2 g3 g4 g5 g6 g7).wf)

lemma state_cookie_body_parse (c : SctpStateCookie) (hwf : c.wf = true) :
    parse_sctp_state_cookie c.body_bytes = some (c, []) := by
  obtain ⟨ci, ca, mv, pv, sp, dp, da, tm⟩ := c
  simp only [SctpStateCookie.wf, Bool.and_eq_true, decide_eq_true_eq] at hwf
  obtain ⟨⟨⟨⟨⟨⟨⟨hi, ha⟩, h1⟩, h2⟩, h3⟩, h4⟩, h5⟩, hda⟩ := hwf
  cases ci
  case' init vi => ?_
  all_goals try simp_all
  cases ca
  case' initAck va => ?_
  all_goals try simp_all
  cases da with
  | v4 o0 o1 o2 o3 =>
    have hre : SctpStateCookie.body_bytes
        ⟨.init vi, .initAck va, mv, pv, sp, dp, .v4 o0 o1 o2 o3, tm⟩ =
        (SctpChunk.init vi).to_bytes ++ ((SctpChunk.initAck va).to_bytes ++
          (u32B mv ++ (u32B pv ++ (u16B sp ++ (u16B dp ++ (u64B tm ++
            ((SctpParameter.ipv4 o0 o1 o2 o3).to_bytes ++ []))))))) := by
      simp [SctpStateCookie.body_bytes, List.append_assoc]
    rw [hre]
    simp only [parse_sctp_state_cookie, init_chunk_roundtrip vi hi,
      initAck_chunk_roundtrip va ha, parseU32_u32B mv _ h1, parseU32_u32B pv _ h2,
      parseU16_u16B sp _ h3, parseU16_u16B dp _ h4, parseU64_u64B tm _ h5,
      param_roundtrip (SctpParameter.ipv4 o0 o1 o2 o3) [] hda]
  | v6 g0 g1 g2 g3 g4 g5 g6 g7 =>
    have hre : SctpStateCookie.body_bytes
        ⟨.init vi, .initAck va, mv, pv, sp, dp, .v6 g0 g1 g2 g3 g4 g5 g6 g7, tm⟩ =
        (SctpChunk.init vi).to_bytes ++ ((SctpChunk.initAck va).to_bytes ++
          (u32B mv ++ (u32B pv ++ (u16B sp ++ (u16B dp ++ (u64B tm ++
            ((SctpParameter.ipv6 g0 g1 g2 g3 g4 g5 g6 g7).to_bytes ++ []))))))) := by
      simp [SctpStateCookie.body_bytes, List.append_assoc]
    rw [hre]
    simp only [parse_sctp_state_cookie, init_chunk_roundtrip vi hi,
      initAck_chunk_roundtrip va ha, parseU32_u32B mv _ h1, parseU32_u32B pv _ h2,
      parseU16_u16B sp _ h3, parseU16_u16B dp _ h4, parseU64_u64B tm _ h5,
      param_roundtrip (SctpParameter.ipv6 g0 g1 g2 g3 g4 g5 g6 g7) [] hda]

set_option maxRecDepth 10000 in
/-- C4: the chunk codec does not round-trip: for the in-memory value
`HeartbeatAckWithInfo {pathid 1, sequence 2, random 3}`, `to_bytes`
emits 44 bytes while declaring chunk length 32 (the pathid is written
where the heartbeat-info parameter header belongs, as a `u64`), and
`from_bytes` on that encoding yields a different value — pathid
`2^32`, sequence `28 * 2^32`, random `2^32` — consuming only 32 bytes.
This refutes the claimed `decode(encode(x)) = x` for the supported set. -/
theorem claim_C4_heartbeat_ack_roundtrip_bug :
    ((SctpChunk.heartbeatAckWithInfo ⟨1, 2, 3⟩).to_bytes).length = 44 ∧
    SctpChunk.from_bytes (SctpChunk.heartbeatAckWithInfo ⟨1, 2, 3⟩).to_bytes =
      .ok (.heartbeatAckWithInfo ⟨4294967296, 120259084288, 4294967296⟩, 32) ∧
    SctpChunk.from_bytes (SctpChunk.heartbeatAckWithInfo ⟨1, 2, 3⟩).to_bytes ≠
      .ok (.heartbeatAckWithInfo ⟨1, 2, 3⟩,
        ((SctpChunk.heartbeatAckWithInfo ⟨1, 2, 3⟩).to_bytes).length) := by
  exact ⟨by decide, by decide, by decide⟩

/-- C5: with any fixed HMAC producing 32-byte tags (the external
HMAC-SHA-256), `SctpStateCookie::from_bytes` rejects with `InvalidChunk`
every input of at least 32 bytes whose trailing 32 bytes differ from the
tag of the preceding bytes; and for every well-formed cookie the output
of `to_bytes` under the same key decodes back to exactly the original
cookie — embedded INIT and INIT-ACK chunks, tags, ports, time and peer
address — consuming the whole encoding. -/
theorem claim_C5_cookie_authenticity
    (hmac : Bytes → Bytes → Bytes) (hlen : ∀ k m, (hmac k m).length = 32) :
    (∀ key bytes, 32 ≤ bytes.length →
        hmac key (bytes.take (bytes.length - 32)) ≠ bytes.drop (bytes.length - 32) →
        SctpStateCookie.from_bytes hmac key bytes = .fail .invalidChunk) ∧
    (∀ key c, SctpStateCookie.wf c = true →
        SctpStateCookie.from_bytes hmac key (SctpStateCookie.to_bytes hmac key c) =
          .ok (c, (SctpStateCookie.to_bytes hmac key c).length)) := by
  constructor
  · intro key bytes hge hne
    rw [SctpStateCookie.from_bytes, if_neg (by omega), if_pos hne]
  · intro key c hwf
    have hbl : (SctpStateCookie.to_bytes hmac key c).length = c.body_bytes.length + 32 := by
      simp [SctpStateCookie.to_bytes, hlen]
    have hsub : (SctpStateCookie.to_bytes hmac key c).length - 32 = c.body_bytes.length := by
      omega
    have htake : (SctpStateCookie.to_bytes hmac key c).take
        ((SctpStateCookie.to_bytes hmac key c).length - 32) = c.body_bytes := by
      rw [hsub, SctpStateCookie.to_bytes, List.take_left]
    have hdrop : (SctpStateCookie.to_bytes hmac key c).drop
        ((SctpStateCookie.to_bytes hmac key c).length - 32) = hmac key c.body_bytes := by
      rw [hsub, SctpStateCookie.to_bytes, List.drop_left]
    rw [SctpStateCookie.from_bytes, if_neg (by omega), htake, hdrop, if_neg (by simp),
      state_cookie_body_parse c hwf]
    simp

/-- A stand-in HMAC for the witness: constant 32-byte tag. -/
def c5hmac : Bytes → Bytes → Bytes := fun _ _ => List.replicate 32 0

/-- A concrete well-formed cookie for the witness. -/
def c5cookie : SctpStateCookie :=
  ⟨.init ⟨1, 2, 3, 4, 5, [.ecn, .random [7, 7, 7, 7]]⟩,
   .initAck ⟨6, 7, 8, 9, 10, []⟩, 11, 12, 13, 14, .v4 1 2 3 4, 15⟩

/-- A concrete forged input for the witness: its trailing 32 bytes are
ones, not the constant zero tag. -/
def c5forged : Bytes := List.replicate 33 1

set_option maxRecDepth 10000 in
/-- Witness for C5 at the constant HMAC, a forged 33-byte input and a
concrete cookie. -/
theorem claim_C5_cookie_authenticity_witness :
    SctpStateCookie.from_bytes c5hmac [2] c5forged = .fail .invalidChunk ∧
    SctpStateCookie.from_bytes c5hmac [2] (SctpStateCookie.to_bytes c5hmac [2] c5cookie) =
      .ok (c5cookie, (SctpStateCookie.to_bytes c5hmac [2] c5cookie).length) :=
  ⟨(claim_C5_cookie_authenticity c5hmac (fun _ _ => rfl)).1 [2] c5forged
      (by decide) (by decide),
   (claim_C5_cookie_authenticity c5hmac (fun _ _ => rfl)).2 [2] c5cookie (by decide)⟩
